import Mathlib

/-!
# SDL joystick / gamepad input layer (`src/common/platform/uwp/sdl/i_joystick.cpp`)

A shallow embedding of the classic joystick adapter (`SDLInputJoystick`), the
gamepad adapter (`SDLInputGamepad`), the device manager
(`SDLInputJoystickManager`) and the free functions `I_GetJoysticks`,
`I_GetAxes` and `I_ProcessJoysticks`.

Modelling conventions.

* C `float` / `double` values are rationals: the model keeps the order and the
  exact arithmetic of the finite values and has no rounding, NaN or infinity.
* C `int` indices and counts are natural numbers (every loop starts at 0; a
  negative index is out of range for every table). `uint8_t` values are
  naturals, reduced `% 256` where the source narrows an `int`.
* `for (i = 0; i < n; ++i)` is `forLoop n body`.
* An array access outside the array is undefined behaviour in the source. A
  getter or setter called with such an index returns `none`; a loop body that
  would make such an access leaves the state as it is. The theorems about loops
  assume the table covers the indices the loop visits, which holds on every
  constructed device.
* A heap object with mutable members is a value that is passed in and returned.
* The SDL library, the functions of `m_joy.cpp`, the key codes of `keydef.h`
  and the `use_joystick` variable are outside this file of the repository; they
  are parameters (`SDL`, `MJoy`) of every definition that uses them.
* Constructors and destructors list the calls they make to the outside
  (`SDL_JoystickOpen`, `M_SaveJoystickConfig`, `SDL_JoystickClose`, ...) on an
  effect trace, in the order of the source.
-/

namespace Joystick

/-! ## Generic helpers -/

/-- The loop `for (i = 0; i < n; ++i) s = body i s`: the body runs for
`i = 0, 1, ..., n-1` in that order. -/
def forLoop {σ : Type} (n : Nat) (body : Nat → σ → σ) (s : σ) : σ :=
  match n with
  | 0 => s
  | k + 1 => body k (forLoop k body s)

/-- In-place update `l[i] = f(l[i])` of an array slot; an index outside the
array (undefined behaviour in the source) leaves the array as it is. -/
def modifyAt {α : Type} (l : List α) (i : Nat) (f : α → α) : List α :=
  match l[i]? with
  | some a => l.set i (f a)
  | none => l

/-- `#define DEFAULT_DEADZONE 0.25f` -/
def DEFAULT_DEADZONE : ℚ := 1 / 4

/-- `#define MIN_DEADZONE 0.000001f` -/
def MIN_DEADZONE : ℚ := 1 / 1000000

/-- Modelled from the spec: the `clamp` template of the engine's headers (not
in this file); "clamps input into `[epsilon, 1.0]`": a value at or below the
lower bound gives the lower bound, a value at or above the upper bound gives the
upper bound, any other value is returned as it is. -/
def clamp (v lo hi : ℚ) : ℚ :=
  if v ≤ lo then lo else if v ≥ hi then hi else v

/-! ## Declarations taken from headers -/

/-- Modelled from the spec: the game-axis enumeration `EJoyAxis` of `m_joy.h`
("a fixed enumeration of named game axes", or "none"), with the six values this
file names. -/
inductive EJoyAxis where
  | JOYAXIS_None
  | JOYAXIS_Yaw
  | JOYAXIS_Pitch
  | JOYAXIS_Forward
  | JOYAXIS_Side
  | JOYAXIS_Up
  deriving DecidableEq, Repr

open EJoyAxis

/-- The game-axis vector `float axes[NUM_JOYAXIS]`, indexed by game axis. The
slot of `JOYAXIS_None` is never written: every write in the source is guarded
or names a real axis. -/
abbrev AxisVec := EJoyAxis → ℚ

/-- The statement `axes[g] = v`. -/
def AxisVec.assign (axes : AxisVec) (g : EJoyAxis) (v : ℚ) : AxisVec :=
  fun k => if k = g then v else axes k

/-- A button event posted by the edge detector: key code and press / release. -/
structure ButtonEvent where
  key : Nat
  down : Bool
  deriving DecidableEq, Repr

/-- The primitives of `m_joy.cpp` and the key codes of `keydef.h` that the
adapters call; they are defined outside this file. -/
structure MJoy where
  /-- `Joy_RemoveDeadZone(axisval, deadzone, &buttons)` with `buttons` zeroed by
  the caller: the returned value and the byte left in `buttons`. -/
  Joy_RemoveDeadZone : ℚ → ℚ → ℚ × Nat
  /-- `Joy_XYAxesToButtons(x, y)`. -/
  Joy_XYAxesToButtons : ℚ → ℚ → Nat
  /-- `Joy_GenerateButtonEvents(oldbuttons, newbuttons, numbuttons, base)`: the
  events it posts, in order. -/
  Joy_GenerateButtonEvents : Nat → Nat → Nat → Nat → List ButtonEvent
  NUM_JOYAXISBUTTONS : Nat
  KEY_JOYAXIS1PLUS : Nat
  KEY_JOYPOV1_UP : Nat
  KEY_PAD_LTHUMB_RIGHT : Nat
  KEY_PAD_RTHUMB_RIGHT : Nat
  KEY_PAD_LTRIGGER : Nat
  KEY_PAD_RTRIGGER : Nat
  KEY_PAD_DPAD_UP : Nat
  KEY_PAD_START : Nat
  KEY_PAD_A : Nat

/-- Buttons of `SDL_GameControllerButton` read by the gamepad adapter. -/
inductive SDL_GameControllerButton where
  | SDL_CONTROLLER_BUTTON_A
  | SDL_CONTROLLER_BUTTON_B
  | SDL_CONTROLLER_BUTTON_X
  | SDL_CONTROLLER_BUTTON_Y
  | SDL_CONTROLLER_BUTTON_BACK
  | SDL_CONTROLLER_BUTTON_START
  | SDL_CONTROLLER_BUTTON_LEFTSTICK
  | SDL_CONTROLLER_BUTTON_RIGHTSTICK
  | SDL_CONTROLLER_BUTTON_LEFTSHOULDER
  | SDL_CONTROLLER_BUTTON_RIGHTSHOULDER
  | SDL_CONTROLLER_BUTTON_DPAD_UP
  | SDL_CONTROLLER_BUTTON_DPAD_DOWN
  | SDL_CONTROLLER_BUTTON_DPAD_LEFT
  | SDL_CONTROLLER_BUTTON_DPAD_RIGHT
  deriving DecidableEq, Repr

open SDL_GameControllerButton

/-- `SDL_CONTROLLER_AXIS_LEFTX` -/
def SDL_CONTROLLER_AXIS_LEFTX : Nat := 0
/-- `SDL_CONTROLLER_AXIS_LEFTY` -/
def SDL_CONTROLLER_AXIS_LEFTY : Nat := 1
/-- `SDL_CONTROLLER_AXIS_RIGHTX` -/
def SDL_CONTROLLER_AXIS_RIGHTX : Nat := 2
/-- `SDL_CONTROLLER_AXIS_RIGHTY` -/
def SDL_CONTROLLER_AXIS_RIGHTY : Nat := 3
/-- `SDL_CONTROLLER_AXIS_TRIGGERLEFT` -/
def SDL_CONTROLLER_AXIS_TRIGGERLEFT : Nat := 4
/-- `SDL_CONTROLLER_AXIS_TRIGGERRIGHT` -/
def SDL_CONTROLLER_AXIS_TRIGGERRIGHT : Nat := 5
/-- `SDL_CONTROLLER_AXIS_MAX` -/
def SDL_CONTROLLER_AXIS_MAX : Nat := 6

/-- The SDL library as the adapters see it during one call: which devices
open, and what an opened handle reports. A handle is a natural number; `none`
is the null handle. -/
structure SDL where
  /-- `SDL_NumJoysticks()` -/
  SDL_NumJoysticks : Nat
  /-- `SDL_IsGameController(i)` -/
  SDL_IsGameController : Nat → Bool
  /-- `SDL_JoystickOpen(i)` -/
  SDL_JoystickOpen : Nat → Option Nat
  /-- `SDL_JoystickNumAxes(dev)` -/
  SDL_JoystickNumAxes : Nat → Nat
  /-- `SDL_JoystickNumHats(dev)` -/
  SDL_JoystickNumHats : Nat → Nat
  /-- `SDL_JoystickGetAxis(dev, axis)`, a signed 16-bit sample -/
  SDL_JoystickGetAxis : Nat → Nat → Int
  /-- `SDL_JoystickGetHat(dev, hat)`, a bit mask in a byte -/
  SDL_JoystickGetHat : Nat → Nat → Nat
  /-- `SDL_GameControllerOpen(i)` -/
  SDL_GameControllerOpen : Nat → Option Nat
  /-- `SDL_GameControllerGetAxis(pad, axis)`, a signed 16-bit sample -/
  SDL_GameControllerGetAxis : Nat → Nat → Int
  /-- `SDL_GameControllerGetButton(pad, button)`, 1 when pressed, else 0 -/
  SDL_GameControllerGetButton : Nat → SDL_GameControllerButton → Nat

/-! ## Classic joystick adapter -/

/-- `SDLInputJoystick::AxisInfo` -/
structure SDLInputJoystick.AxisInfo where
  Name : String
  DeadZone : ℚ
  Multiplier : ℚ
  GameAxis : EJoyAxis
  Value : ℚ
  ButtonValue : Nat
  deriving DecidableEq, Repr

/-- The data members of `class SDLInputJoystick`. -/
structure SDLInputJoystick where
  DeviceIndex : Nat
  Device : Option Nat
  Multiplier : ℚ
  Enabled : Bool
  Axes : List SDLInputJoystick.AxisInfo
  NumAxes : Nat
  NumHats : Nat
  deriving DecidableEq, Repr

namespace SDLInputJoystick

/-- `const EJoyAxis SDLInputJoystick::DefaultAxes[5]` -/
def DefaultAxes : List EJoyAxis :=
  [JOYAXIS_Side, JOYAXIS_Forward, JOYAXIS_None, JOYAXIS_Yaw, JOYAXIS_Pitch]

/-- `IsValid()`: `Device != NULL`. -/
def IsValid (j : SDLInputJoystick) : Bool := j.Device.isSome

/-- `GetSensitivity()` -/
def GetSensitivity (j : SDLInputJoystick) : ℚ := j.Multiplier

/-- `SetSensitivity(scale)` -/
def SetSensitivity (j : SDLInputJoystick) (scale : ℚ) : SDLInputJoystick :=
  { j with Multiplier := scale }

/-- `GetNumAxes()`: `NumAxes + NumHats*2`. -/
def GetNumAxes (j : SDLInputJoystick) : Nat := j.NumAxes + j.NumHats * 2

/-- `GetAxisDeadZone(axis)`: `Axes[axis].DeadZone`; `none` when `axis` is
outside the table. -/
def GetAxisDeadZone (j : SDLInputJoystick) (axis : Nat) : Option ℚ :=
  (j.Axes[axis]?).map (fun a => a.DeadZone)

/-- `GetAxisMap(axis)`: `Axes[axis].GameAxis`. -/
def GetAxisMap (j : SDLInputJoystick) (axis : Nat) : Option EJoyAxis :=
  (j.Axes[axis]?).map (fun a => a.GameAxis)

/-- `GetAxisName(axis)`: `Axes[axis].Name`. -/
def GetAxisName (j : SDLInputJoystick) (axis : Nat) : Option String :=
  (j.Axes[axis]?).map (fun a => a.Name)

/-- `GetAxisScale(axis)`: `Axes[axis].Multiplier`. -/
def GetAxisScale (j : SDLInputJoystick) (axis : Nat) : Option ℚ :=
  (j.Axes[axis]?).map (fun a => a.Multiplier)

/-- `SetAxisDeadZone(axis, zone)`:
`Axes[axis].DeadZone = clamp(zone, MIN_DEADZONE, 1.f)`; `none` when `axis` is
outside the table. -/
def SetAxisDeadZone (j : SDLInputJoystick) (axis : Nat) (zone : ℚ) :
    Option SDLInputJoystick :=
  match j.Axes[axis]? with
  | some a => some { j with Axes := j.Axes.set axis { a with DeadZone := clamp zone MIN_DEADZONE 1 } }
  | none => none

/-- `SetAxisMap(axis, gameaxis)`: `Axes[axis].GameAxis = gameaxis`. -/
def SetAxisMap (j : SDLInputJoystick) (axis : Nat) (gameaxis : EJoyAxis) :
    Option SDLInputJoystick :=
  match j.Axes[axis]? with
  | some a => some { j with Axes := j.Axes.set axis { a with GameAxis := gameaxis } }
  | none => none

/-- `SetAxisScale(axis, scale)`: `Axes[axis].Multiplier = scale`. -/
def SetAxisScale (j : SDLInputJoystick) (axis : Nat) (scale : ℚ) :
    Option SDLInputJoystick :=
  match j.Axes[axis]? with
  | some a => some { j with Axes := j.Axes.set axis { a with Multiplier := scale } }
  | none => none

/-- `IsSensitivityDefault()` -/
def IsSensitivityDefault (j : SDLInputJoystick) : Bool := j.Multiplier == 1

/-- `IsAxisDeadZoneDefault(axis)`: `Axes[axis].DeadZone <= MIN_DEADZONE`. -/
def IsAxisDeadZoneDefault (j : SDLInputJoystick) (axis : Nat) : Option Bool :=
  (j.Axes[axis]?).map (fun a => decide (a.DeadZone ≤ MIN_DEADZONE))

/-- `IsAxisMapDefault(axis)` -/
def IsAxisMapDefault (j : SDLInputJoystick) (axis : Nat) : Option Bool :=
  (j.Axes[axis]?).map (fun a =>
    if axis ≥ 5 then a.GameAxis == JOYAXIS_None
    else a.GameAxis == DefaultAxes.getD axis JOYAXIS_None)

/-- `IsAxisScaleDefault(axis)` -/
def IsAxisScaleDefault (j : SDLInputJoystick) (axis : Nat) : Option Bool :=
  (j.Axes[axis]?).map (fun a => a.Multiplier == 1)

/-- The `AxisInfo info` that one iteration `i` of the loop of `SetDefaultConfig`
fills in and pushes. -/
def defaultAxisInfo (NumAxes i : Nat) : AxisInfo :=
  { Name :=
      if i < NumAxes then "Axis " ++ toString (i + 1)
      else "Hat " ++ toString ((i - NumAxes) / 2 + 1) ++ " ("
        ++ (if (i - NumAxes) % 2 = 0 then "x" else "y") ++ ")"
    DeadZone := DEFAULT_DEADZONE
    Multiplier := 1
    Value := 0
    ButtonValue := 0
    GameAxis := if i ≥ 5 then JOYAXIS_None else DefaultAxes.getD i JOYAXIS_None }

/-- `SetDefaultConfig()`: one `Axes.Push(info)` per index below `GetNumAxes()`. -/
def SetDefaultConfig (j : SDLInputJoystick) : SDLInputJoystick :=
  forLoop j.GetNumAxes
    (fun i s => { s with Axes := s.Axes ++ [defaultAxisInfo s.NumAxes i] }) j

/-- The constructor `SDLInputJoystick(int DeviceIndex)`. The members `NumAxes`
and `NumHats` are left uninitialised when the device does not open; the model
puts 0 there. -/
def new (sdl : SDL) (DeviceIndex : Nat) : SDLInputJoystick :=
  let Device := sdl.SDL_JoystickOpen DeviceIndex
  let j : SDLInputJoystick :=
    { DeviceIndex := DeviceIndex, Device := Device, Multiplier := 1, Enabled := true,
      Axes := [], NumAxes := 0, NumHats := 0 }
  match Device with
  | some dev =>
      SetDefaultConfig
        { j with NumAxes := sdl.SDL_JoystickNumAxes dev, NumHats := sdl.SDL_JoystickNumHats dev }
  | none => j

/-- `GetEnabled()` -/
def GetEnabled (j : SDLInputJoystick) : Bool := j.Enabled

/-- `SetEnabled(enabled)` -/
def SetEnabled (j : SDLInputJoystick) (enabled : Bool) : SDLInputJoystick :=
  { j with Enabled := enabled }

/-- `AddAxes(axes)`: for every index below `GetNumAxes()` whose axis is mapped,
`axes[Axes[i].GameAxis] -= float(Axes[i].Value * Multiplier * Axes[i].Multiplier)`. -/
def AddAxes (j : SDLInputJoystick) (axes : AxisVec) : AxisVec :=
  forLoop j.GetNumAxes
    (fun i axes =>
      match j.Axes[i]? with
      | some a =>
          if a.GameAxis ≠ JOYAXIS_None then
            axes.assign a.GameAxis (axes a.GameAxis - a.Value * j.Multiplier * a.Multiplier)
          else axes
      | none => axes)
    axes

/-- The sample `SDL_JoystickGetAxis(Device, i)`; SDL reports 0 for a null
handle. -/
def rawAxis (sdl : SDL) (j : SDLInputJoystick) (i : Nat) : Int :=
  match j.Device with
  | some dev => sdl.SDL_JoystickGetAxis dev i
  | none => 0

/-- The byte `SDL_JoystickGetHat(Device, i)`; SDL reports 0 for a null handle. -/
def rawHat (sdl : SDL) (j : SDLInputJoystick) (i : Nat) : Nat :=
  match j.Device with
  | some dev => sdl.SDL_JoystickGetHat dev i % 256
  | none => 0

/-- Body of the first loop of `ProcessInput` (physical axis `i`): sample,
remove the dead zone, and for a single-axis device or an axis from the third on
post the events of its button pair. -/
def axisStep (lib : MJoy) (sdl : SDL) (i : Nat)
    (s : SDLInputJoystick × List ButtonEvent) : SDLInputJoystick × List ButtonEvent :=
  let j := s.1
  match j.Axes[i]? with
  | none => s
  | some a =>
      let r := lib.Joy_RemoveDeadZone ((rawAxis sdl j i : ℚ) / 32767) a.DeadZone
      let buttonstate := r.2 % 256
      if j.NumAxes = 1 ∨ (i ≥ 2 ∧ i < lib.NUM_JOYAXISBUTTONS) then
        ({ j with Axes := j.Axes.set i { a with Value := r.1, ButtonValue := buttonstate } },
          s.2 ++ lib.Joy_GenerateButtonEvents a.ButtonValue buttonstate 2
            (lib.KEY_JOYAXIS1PLUS + i * 2))
      else
        ({ j with Axes := j.Axes.set i { a with Value := r.1 } }, s.2)

/-- The block `if (NumAxes > 1)` of `ProcessInput`: the first two axes drive
one group of four buttons. -/
def xyStep (lib : MJoy) (s : SDLInputJoystick × List ButtonEvent) :
    SDLInputJoystick × List ButtonEvent :=
  let j := s.1
  if j.NumAxes > 1 then
    match j.Axes[0]?, j.Axes[1]? with
    | some a0, some a1 =>
        let buttonstate := lib.Joy_XYAxesToButtons a0.Value a1.Value % 256
        ({ j with Axes := j.Axes.set 0 { a0 with ButtonValue := buttonstate } },
          s.2 ++ lib.Joy_GenerateButtonEvents a0.ButtonValue buttonstate 4 lib.KEY_JOYAXIS1PLUS)
    | _, _ => s
  else s

/-- The value written to a hat's synthetic Y axis. -/
def hatY (buttonstate : Nat) : ℚ :=
  if buttonstate &&& 0x1 ≠ 0 then -1
  else if buttonstate &&& 0x4 ≠ 0 then 1
  else 0

/-- The value written to a hat's synthetic X axis. -/
def hatX (buttonstate : Nat) : ℚ :=
  if buttonstate &&& 0x2 ≠ 0 then 1
  else if buttonstate &&& 0x8 ≠ 0 then -1
  else 0

/-- Body of the second loop of `ProcessInput` (hat `i`): `x` is
`Axes[NumAxes + i*2]` and `y` is `Axes[NumAxes + i*2 + 1]`. -/
def hatStep (lib : MJoy) (sdl : SDL) (i : Nat)
    (s : SDLInputJoystick × List ButtonEvent) : SDLInputJoystick × List ButtonEvent :=
  let j := s.1
  let buttonstate := rawHat sdl j i
  let axes1 := modifyAt j.Axes (j.NumAxes + i * 2 + 1) (fun y => { y with Value := hatY buttonstate })
  let axes2 := modifyAt axes1 (j.NumAxes + i * 2) (fun x => { x with Value := hatX buttonstate })
  if i < 4 then
    match axes2[j.NumAxes + i * 2]? with
    | some x =>
        ({ j with Axes := axes2.set (j.NumAxes + i * 2) { x with ButtonValue := buttonstate } },
          s.2 ++ lib.Joy_GenerateButtonEvents x.ButtonValue buttonstate 4
            (lib.KEY_JOYPOV1_UP + i * 4))
    | none => ({ j with Axes := axes2 }, s.2)
  else ({ j with Axes := axes2 }, s.2)

/-- `ProcessInput()`: the adapter after the pass and the button events posted
during it, in order. -/
def ProcessInput (lib : MJoy) (sdl : SDL) (j : SDLInputJoystick) :
    SDLInputJoystick × List ButtonEvent :=
  let s1 := forLoop j.NumAxes (axisStep lib sdl) (j, [])
  let s2 := xyStep lib s1
  forLoop j.NumHats (hatStep lib sdl) s2

end SDLInputJoystick

/-! ## Gamepad adapter -/

/-- `SDLInputGamepad::AxisInfo` -/
structure SDLInputGamepad.AxisInfo where
  DeadZone : ℚ
  Multiplier : ℚ
  deriving DecidableEq, Repr

/-- The data members of `class SDLInputGamepad`. -/
structure SDLInputGamepad where
  Enabled : Bool
  _Gamepad : Option Nat
  AxisSettings : List SDLInputGamepad.AxisInfo
  Multiplier : ℚ
  XY_status : Nat
  YawPitch_status : Nat
  Left_status : Nat
  Right_status : Nat
  DPAD_status : Nat
  Buttons1_status : Nat
  Buttons2_status : Nat
  deriving DecidableEq, Repr

namespace SDLInputGamepad

/-- The constructor `SDLInputGamepad(int DeviceIndex)` with the default member
initialisers: it opens the controller and does nothing else. `Multiplier` has no
initialiser in the source; `uninit` is the value the member happens to hold. -/
def new (sdl : SDL) (DeviceIndex : Nat) (uninit : ℚ) : SDLInputGamepad :=
  { Enabled := true
    _Gamepad := sdl.SDL_GameControllerOpen DeviceIndex
    AxisSettings := List.replicate SDL_CONTROLLER_AXIS_MAX { DeadZone := 0, Multiplier := 0 }
    Multiplier := uninit
    XY_status := 0, YawPitch_status := 0, Left_status := 0, Right_status := 0
    DPAD_status := 0, Buttons1_status := 0, Buttons2_status := 0 }

/-- `IsValid()`: `_Gamepad != nullptr`. -/
def IsValid (g : SDLInputGamepad) : Bool := g._Gamepad.isSome

/-- `GetSensitivity()` -/
def GetSensitivity (g : SDLInputGamepad) : ℚ := g.Multiplier

/-- `SetSensitivity(scale)` -/
def SetSensitivity (g : SDLInputGamepad) (scale : ℚ) : SDLInputGamepad :=
  { g with Multiplier := scale }

/-- `GetNumAxes()`: `SDL_CONTROLLER_AXIS_MAX`. -/
def GetNumAxes (_g : SDLInputGamepad) : Nat := SDL_CONTROLLER_AXIS_MAX

/-- `GetAxisDeadZone(axis)`: `return 0.0;`. -/
def GetAxisDeadZone (_g : SDLInputGamepad) (_axis : Nat) : ℚ := 0

/-- `GetAxisMap(axis)`: the `switch` over the axis. -/
def GetAxisMap (_g : SDLInputGamepad) (axis : Nat) : EJoyAxis :=
  if axis = SDL_CONTROLLER_AXIS_LEFTX then JOYAXIS_Side
  else if axis = SDL_CONTROLLER_AXIS_LEFTY then JOYAXIS_Forward
  else if axis = SDL_CONTROLLER_AXIS_RIGHTX then JOYAXIS_Yaw
  else if axis = SDL_CONTROLLER_AXIS_RIGHTY then JOYAXIS_Pitch
  else if axis = SDL_CONTROLLER_AXIS_TRIGGERLEFT then JOYAXIS_Up
  else JOYAXIS_None

/-- `GetAxisName(axis)` -/
def GetAxisName (_g : SDLInputGamepad) (axis : Nat) : String :=
  if axis = SDL_CONTROLLER_AXIS_LEFTX then "Left Thumb Axis X"
  else if axis = SDL_CONTROLLER_AXIS_LEFTY then "Left Thumb Axis Y"
  else if axis = SDL_CONTROLLER_AXIS_RIGHTX then "Right Thumb Axis X"
  else if axis = SDL_CONTROLLER_AXIS_RIGHTY then "Right Thumb Axis Y"
  else if axis = SDL_CONTROLLER_AXIS_TRIGGERLEFT then "Left Trigger"
  else if axis = SDL_CONTROLLER_AXIS_TRIGGERRIGHT then "Right Trigger"
  else "Unknown Axis"

/-- `GetAxisScale(axis)`: `AxisSettings[axis].Multiplier`; `none` when `axis`
is outside the array. -/
def GetAxisScale (g : SDLInputGamepad) (axis : Nat) : Option ℚ :=
  (g.AxisSettings[axis]?).map (fun a => a.Multiplier)

/-- `SetAxisDeadZone(axis, zone)`:
`AxisSettings[axis].DeadZone = clamp(zone, MIN_DEADZONE, 1.f)`; `none` when
`axis` is outside the array. -/
def SetAxisDeadZone (g : SDLInputGamepad) (axis : Nat) (zone : ℚ) :
    Option SDLInputGamepad :=
  match g.AxisSettings[axis]? with
  | some a =>
      some { g with AxisSettings :=
        g.AxisSettings.set axis { a with DeadZone := clamp zone MIN_DEADZONE 1 } }
  | none => none

/-- `SetAxisMap(axis, gameaxis)`: the empty body `{}`. -/
def SetAxisMap (g : SDLInputGamepad) (_axis : Nat) (_gameaxis : EJoyAxis) :
    SDLInputGamepad := g

/-- `SetAxisScale(axis, scale)`: `AxisSettings[axis].Multiplier = scale`. -/
def SetAxisScale (g : SDLInputGamepad) (axis : Nat) (scale : ℚ) :
    Option SDLInputGamepad :=
  match g.AxisSettings[axis]? with
  | some a => some { g with AxisSettings := g.AxisSettings.set axis { a with Multiplier := scale } }
  | none => none

/-- `GetEnabled()` -/
def GetEnabled (g : SDLInputGamepad) : Bool := g.Enabled

/-- `SetEnabled(enabled)` -/
def SetEnabled (g : SDLInputGamepad) (enabled : Bool) : SDLInputGamepad :=
  { g with Enabled := enabled }

/-- `IsSensitivityDefault()` -/
def IsSensitivityDefault (g : SDLInputGamepad) : Bool := g.Multiplier == 1

/-- `IsAxisDeadZoneDefault(axis)`: `AxisSettings[axis].DeadZone == DEFAULT_DEADZONE`. -/
def IsAxisDeadZoneDefault (g : SDLInputGamepad) (axis : Nat) : Option Bool :=
  (g.AxisSettings[axis]?).map (fun a => a.DeadZone == DEFAULT_DEADZONE)

/-- `IsAxisMapDefault(axis)`: `return true;`. -/
def IsAxisMapDefault (_g : SDLInputGamepad) (_axis : Nat) : Bool := true

/-- `IsAxisScaleDefault(axis)` -/
def IsAxisScaleDefault (g : SDLInputGamepad) (axis : Nat) : Option Bool :=
  (g.AxisSettings[axis]?).map (fun a => a.Multiplier == 1)

/-- `SetDefaultConfig()` -/
def SetDefaultConfig (g : SDLInputGamepad) : SDLInputGamepad :=
  forLoop SDL_CONTROLLER_AXIS_MAX
    (fun axis s =>
      { s with AxisSettings :=
        modifyAt s.AxisSettings axis (fun _ => { DeadZone := DEFAULT_DEADZONE, Multiplier := 1 }) })
    { g with Multiplier := 1 }

/-- The sample `SDL_GameControllerGetAxis(_Gamepad, axis)`; SDL reports 0 for a
null handle. -/
def rawAxis (sdl : SDL) (g : SDLInputGamepad) (axis : Nat) : Int :=
  match g._Gamepad with
  | some pad => sdl.SDL_GameControllerGetAxis pad axis
  | none => 0

/-- The byte `SDL_GameControllerGetButton(_Gamepad, button)`; SDL reports 0 for
a null handle. -/
def rawButton (sdl : SDL) (g : SDLInputGamepad) (button : SDL_GameControllerButton) : Nat :=
  match g._Gamepad with
  | some pad => sdl.SDL_GameControllerGetButton pad button % 256
  | none => 0

/-- The dead zone `AxisSettings[axis].DeadZone` that polling reads; the axes
named in the source are all inside the array. -/
def storedDeadZone (g : SDLInputGamepad) (axis : Nat) : ℚ :=
  match g.AxisSettings[axis]? with
  | some a => a.DeadZone
  | none => 0

/-- `processAxis(axis)`: the sample over `INT16_MAX` with the dead zone removed. -/
def processAxis (lib : MJoy) (sdl : SDL) (g : SDLInputGamepad) (axis : Nat) : ℚ :=
  (lib.Joy_RemoveDeadZone ((rawAxis sdl g axis : ℚ) / 32767) (storedDeadZone g axis)).1

/-- `processAxisAsButton(axis)`: the status byte of the same computation. -/
def processAxisAsButton (lib : MJoy) (sdl : SDL) (g : SDLInputGamepad) (axis : Nat) : Nat :=
  (lib.Joy_RemoveDeadZone ((rawAxis sdl g axis : ℚ) / 32767) (storedDeadZone g axis)).2 % 256

/-- `AddAxes(axes)`: five assignments `axes[...] = -processAxis(...)`. -/
def AddAxes (lib : MJoy) (sdl : SDL) (g : SDLInputGamepad) (axes : AxisVec) : AxisVec :=
  let axes := axes.assign JOYAXIS_Side (-processAxis lib sdl g SDL_CONTROLLER_AXIS_LEFTX)
  let axes := axes.assign JOYAXIS_Forward (-processAxis lib sdl g SDL_CONTROLLER_AXIS_LEFTY)
  let axes := axes.assign JOYAXIS_Yaw (-processAxis lib sdl g SDL_CONTROLLER_AXIS_RIGHTX)
  let axes := axes.assign JOYAXIS_Pitch (-processAxis lib sdl g SDL_CONTROLLER_AXIS_RIGHTY)
  axes.assign JOYAXIS_Up (-processAxis lib sdl g SDL_CONTROLLER_AXIS_TRIGGERLEFT)

/-- `ProcessInput()`: the adapter after the pass and the button events posted
during it, in order. -/
def ProcessInput (lib : MJoy) (sdl : SDL) (g : SDLInputGamepad) :
    SDLInputGamepad × List ButtonEvent :=
  let new_XY_status :=
    lib.Joy_XYAxesToButtons (processAxis lib sdl g SDL_CONTROLLER_AXIS_LEFTX)
      (processAxis lib sdl g SDL_CONTROLLER_AXIS_LEFTY) % 256
  let ev1 := lib.Joy_GenerateButtonEvents g.XY_status new_XY_status 4 lib.KEY_PAD_LTHUMB_RIGHT
  let new_YawPitch_status :=
    lib.Joy_XYAxesToButtons (processAxis lib sdl g SDL_CONTROLLER_AXIS_RIGHTX)
      (processAxis lib sdl g SDL_CONTROLLER_AXIS_RIGHTY) % 256
  let ev2 :=
    lib.Joy_GenerateButtonEvents g.YawPitch_status new_YawPitch_status 4 lib.KEY_PAD_RTHUMB_RIGHT
  let new_Left_status :=
    if processAxisAsButton lib sdl g SDL_CONTROLLER_AXIS_TRIGGERLEFT ≠ 0 then 1 else 0
  let ev3 := lib.Joy_GenerateButtonEvents g.Left_status new_Left_status 1 lib.KEY_PAD_LTRIGGER
  let new_Right_status :=
    if processAxisAsButton lib sdl g SDL_CONTROLLER_AXIS_TRIGGERRIGHT ≠ 0 then 1 else 0
  let ev4 := lib.Joy_GenerateButtonEvents g.Right_status new_Right_status 1 lib.KEY_PAD_RTRIGGER
  let new_DPAD_status :=
    (rawButton sdl g SDL_CONTROLLER_BUTTON_DPAD_UP
      ||| rawButton sdl g SDL_CONTROLLER_BUTTON_DPAD_DOWN <<< 1
      ||| rawButton sdl g SDL_CONTROLLER_BUTTON_DPAD_LEFT <<< 2
      ||| rawButton sdl g SDL_CONTROLLER_BUTTON_DPAD_RIGHT <<< 3) % 256
  let ev5 := lib.Joy_GenerateButtonEvents g.DPAD_status new_DPAD_status 4 lib.KEY_PAD_DPAD_UP
  let new_Buttons1_status :=
    (rawButton sdl g SDL_CONTROLLER_BUTTON_START
      ||| rawButton sdl g SDL_CONTROLLER_BUTTON_BACK <<< 1
      ||| rawButton sdl g SDL_CONTROLLER_BUTTON_LEFTSTICK <<< 2
      ||| rawButton sdl g SDL_CONTROLLER_BUTTON_RIGHTSTICK <<< 3
      ||| rawButton sdl g SDL_CONTROLLER_BUTTON_LEFTSHOULDER <<< 4
      ||| rawButton sdl g SDL_CONTROLLER_BUTTON_RIGHTSHOULDER <<< 5) % 256
  let ev6 := lib.Joy_GenerateButtonEvents g.Buttons1_status new_Buttons1_status 6 lib.KEY_PAD_START
  let new_Buttons2_status :=
    (rawButton sdl g SDL_CONTROLLER_BUTTON_A
      ||| rawButton sdl g SDL_CONTROLLER_BUTTON_B <<< 1
      ||| rawButton sdl g SDL_CONTROLLER_BUTTON_X <<< 2
      ||| rawButton sdl g SDL_CONTROLLER_BUTTON_Y <<< 3) % 256
  let ev7 := lib.Joy_GenerateButtonEvents g.Buttons2_status new_Buttons2_status 4 lib.KEY_PAD_A
  ({ g with
      XY_status := new_XY_status
      YawPitch_status := new_YawPitch_status
      Left_status := new_Left_status
      Right_status := new_Right_status
      DPAD_status := new_DPAD_status
      Buttons1_status := new_Buttons1_status
      Buttons2_status := new_Buttons2_status },
    ev1 ++ ev2 ++ ev3 ++ ev4 ++ ev5 ++ ev6 ++ ev7)

end SDLInputGamepad

/-! ## The adapter interface and the device manager -/

/-- An object behind an `IConfigurableJoystick *`: one of the two adapters. -/
inductive IConfigurableJoystick where
  | joystick (j : SDLInputJoystick)
  | gamepad (g : SDLInputGamepad)
  deriving DecidableEq, Repr

namespace IConfigurableJoystick

/-- Virtual `IsValid()`. -/
def IsValid : IConfigurableJoystick → Bool
  | joystick j => j.IsValid
  | gamepad g => g.IsValid

/-- Virtual `GetEnabled()`. -/
def GetEnabled : IConfigurableJoystick → Bool
  | joystick j => j.GetEnabled
  | gamepad g => g.GetEnabled

/-- Virtual `SetEnabled(enabled)`. -/
def SetEnabled (d : IConfigurableJoystick) (enabled : Bool) : IConfigurableJoystick :=
  match d with
  | joystick j => joystick (j.SetEnabled enabled)
  | gamepad g => gamepad (g.SetEnabled enabled)

/-- Virtual `AddAxes(axes)`. -/
def AddAxes (lib : MJoy) (sdl : SDL) (d : IConfigurableJoystick) (axes : AxisVec) : AxisVec :=
  match d with
  | joystick j => j.AddAxes axes
  | gamepad g => g.AddAxes lib sdl axes

/-- Virtual `ProcessInput()`. -/
def ProcessInput (lib : MJoy) (sdl : SDL) (d : IConfigurableJoystick) :
    IConfigurableJoystick × List ButtonEvent :=
  match d with
  | joystick j => ((j.ProcessInput lib sdl).1 |> joystick, (j.ProcessInput lib sdl).2)
  | gamepad g => ((g.ProcessInput lib sdl).1 |> gamepad, (g.ProcessInput lib sdl).2)

end IConfigurableJoystick

/-- The data member of `class SDLInputJoystickManager`: the array `Joysticks`
of owned adapters. The adapter in slot `i` is the object `Joysticks[i]` points
to. -/
structure SDLInputJoystickManager where
  Joysticks : List IConfigurableJoystick
  deriving DecidableEq, Repr

/-- What one polling pass of the manager leaves behind: the adapters, the
button events posted, and the slots whose `ProcessInput` was called, both in
the order they happened. -/
structure PollTrace where
  Joysticks : List IConfigurableJoystick
  events : List ButtonEvent
  polled : List Nat
  deriving DecidableEq, Repr

namespace SDLInputJoystickManager

/-- `AddAxes(axes)`: `Joysticks[i]->AddAxes(axes)` for every slot. -/
def AddAxes (lib : MJoy) (sdl : SDL) (m : SDLInputJoystickManager) (axes : AxisVec) : AxisVec :=
  forLoop m.Joysticks.length
    (fun i axes =>
      match m.Joysticks[i]? with
      | some d => d.AddAxes lib sdl axes
      | none => axes)
    axes

/-- `GetDevices(sticks)`: for every slot, `M_LoadJoystickConfig(Joysticks[i])`
and `sticks.Push(Joysticks[i])`. The pointer pushed is recorded as the slot
number `i` it was read from; `load` is `M_LoadJoystickConfig`, which is
defined outside this file and acts on the adapter it is given. -/
def GetDevices (load : IConfigurableJoystick → IConfigurableJoystick)
    (m : SDLInputJoystickManager) (sticks : List Nat) : SDLInputJoystickManager × List Nat :=
  forLoop m.Joysticks.length
    (fun i s => ({ s.1 with Joysticks := modifyAt s.1.Joysticks i load }, s.2 ++ [i]))
    (m, sticks)

/-- Body of the loop of `ProcessInput` for slot `i`:
`if (Joysticks[i]->GetEnabled()) Joysticks[i]->ProcessInput();`. -/
def pollStep (lib : MJoy) (sdl : SDL) (i : Nat) (t : PollTrace) : PollTrace :=
  match t.Joysticks[i]? with
  | some d =>
      if d.GetEnabled then
        { Joysticks := t.Joysticks.set i (d.ProcessInput lib sdl).1
          events := t.events ++ (d.ProcessInput lib sdl).2
          polled := t.polled ++ [i] }
      else t
  | none => t

/-- `ProcessInput()` -/
def ProcessInput (lib : MJoy) (sdl : SDL) (m : SDLInputJoystickManager) : PollTrace :=
  forLoop m.Joysticks.length (pollStep lib sdl)
    { Joysticks := m.Joysticks, events := [], polled := [] }

/-- A caller's `SetEnabled(enabled)` through the pointer to the adapter in slot
`i`. -/
def SetEnabledAt (m : SDLInputJoystickManager) (i : Nat) (enabled : Bool) :
    SDLInputJoystickManager :=
  { m with Joysticks := modifyAt m.Joysticks i (fun d => d.SetEnabled enabled) }

end SDLInputJoystickManager

/-! ## Free functions

The global `JoystickManager` pointer is an `Option`: `none` is the null
pointer. -/

/-- `I_GetJoysticks(sticks)`: `sticks.Clear()`, then `GetDevices` when there is
a manager. Returns the manager afterwards and the list left in `sticks`. -/
def I_GetJoysticks (load : IConfigurableJoystick → IConfigurableJoystick)
    (JoystickManager : Option SDLInputJoystickManager) (_sticks : List Nat) :
    Option SDLInputJoystickManager × List Nat :=
  let sticks : List Nat := []
  match JoystickManager with
  | some m => ((m.GetDevices load sticks).1 |> some, (m.GetDevices load sticks).2)
  | none => (none, sticks)

/-- `I_GetAxes(axes)`: zero every entry, then `AddAxes` when `use_joystick` is
on and there is a manager. -/
def I_GetAxes (lib : MJoy) (sdl : SDL) (use_joystick : Bool)
    (JoystickManager : Option SDLInputJoystickManager) (_axes : AxisVec) : AxisVec :=
  let axes : AxisVec := fun _ => 0
  match use_joystick, JoystickManager with
  | true, some m => m.AddAxes lib sdl axes
  | _, _ => axes

/-- `I_ProcessJoysticks()`: one polling pass when `use_joystick` is on and
there is a manager; otherwise nothing happens. -/
def I_ProcessJoysticks (lib : MJoy) (sdl : SDL) (use_joystick : Bool)
    (JoystickManager : Option SDLInputJoystickManager) : Option PollTrace :=
  match use_joystick, JoystickManager with
  | true, some m => some (m.ProcessInput lib sdl)
  | _, _ => none

/-! ## The primitives of `m_joy.cpp` as the specification describes them -/

/-- Modelled from the spec: the dead-zone removal `Joy_RemoveDeadZone` of
`m_joy.cpp` (section 4.1): "`v' = 0` if `|v| < deadzone`, else
`v' = sign(v) * (|v| - deadzone) / (1 - deadzone)`", with a 2-bit status, "bit 0
= past negative threshold, bit 1 = past positive threshold", taken against a
second threshold `digital`. -/
def specRemoveDeadZone (digital : ℚ) (v deadzone : ℚ) : ℚ × Nat :=
  (if |v| < deadzone then 0
    else (if v < 0 then -1 else 1) * (|v| - deadzone) / (1 - deadzone),
   (if v < -digital then 1 else 0) + (if v > digital then 2 else 0))

/-- Modelled from the spec: the edge detector `Joy_GenerateButtonEvents` of
`m_joy.cpp` (section 4.2): "a pressed event for every bit that transitioned
0→1 and a released event for every bit that transitioned 1→0, in bit order,
base key code + bit index". -/
def specGenerateButtonEvents (oldbuttons newbuttons numbuttons base : Nat) : List ButtonEvent :=
  (List.range numbuttons).filterMap (fun b =>
    if oldbuttons.testBit b = newbuttons.testBit b then none
    else some { key := base + b, down := newbuttons.testBit b })

/-- Modelled from the spec: the quadrant mapper `Joy_XYAxesToButtons` of
`m_joy.cpp` (section 4.3): a 4-bit mask of up, down, left, right; a deflection
past the activation threshold `radius` on one axis sets one bit, on both axes
two bits. -/
def specXYAxesToButtons (radius : ℚ) (x y : ℚ) : Nat :=
  (if y < -radius then 1 else 0) + (if y > radius then 2 else 0)
    + (if x < -radius then 4 else 0) + (if x > radius then 8 else 0)

/-- An instance of the outside primitives: the three functions as the
specification describes them, the key codes quoted in the comments of
`ProcessInput` (`KEY_PAD_DPAD_UP = 0x1B4`, `KEY_PAD_START = 0x1B8`,
`KEY_PAD_A = 0x1C0`) and key codes for the remaining groups placed around
them. -/
def specMJoy (digital radius : ℚ) : MJoy :=
  { Joy_RemoveDeadZone := specRemoveDeadZone digital
    Joy_XYAxesToButtons := specXYAxesToButtons radius
    Joy_GenerateButtonEvents := specGenerateButtonEvents
    NUM_JOYAXISBUTTONS := 8
    KEY_JOYAXIS1PLUS := 0x198
    KEY_JOYPOV1_UP := 0x188
    KEY_PAD_LTHUMB_RIGHT := 0x1AC
    KEY_PAD_RTHUMB_RIGHT := 0x1B0
    KEY_PAD_LTRIGGER := 0x1BE
    KEY_PAD_RTRIGGER := 0x1BF
    KEY_PAD_DPAD_UP := 0x1B4
    KEY_PAD_START := 0x1B8
    KEY_PAD_A := 0x1C0 }

/-! ## Sequences of configuration calls -/

/-- A configuration call made through the `IJoystickConfig` interface. -/
inductive ConfigCall where
  | SetAxisDeadZone (axis : Nat) (zone : ℚ)
  | SetAxisScale (axis : Nat) (scale : ℚ)
  | SetAxisMap (axis : Nat) (gameaxis : EJoyAxis)
  | SetSensitivity (scale : ℚ)
  | SetEnabled (enabled : Bool)
  | SetDefaultConfig
  deriving DecidableEq, Repr

/-- One configuration call on a classic joystick; `none` when the call indexes
outside the axis table. -/
def SDLInputJoystick.call (j : SDLInputJoystick) : ConfigCall → Option SDLInputJoystick
  | .SetAxisDeadZone axis zone => j.SetAxisDeadZone axis zone
  | .SetAxisScale axis scale => j.SetAxisScale axis scale
  | .SetAxisMap axis gameaxis => j.SetAxisMap axis gameaxis
  | .SetSensitivity scale => some (j.SetSensitivity scale)
  | .SetEnabled enabled => some (j.SetEnabled enabled)
  | .SetDefaultConfig => some j.SetDefaultConfig

/-- A sequence of configuration calls on a classic joystick, first call first. -/
def SDLInputJoystick.calls (j : SDLInputJoystick) : List ConfigCall → Option SDLInputJoystick
  | [] => some j
  | c :: cs =>
      match j.call c with
      | some j2 => j2.calls cs
      | none => none

/-- One configuration call on a gamepad; `none` when the call indexes outside
the settings array. -/
def SDLInputGamepad.call (g : SDLInputGamepad) : ConfigCall → Option SDLInputGamepad
  | .SetAxisDeadZone axis zone => g.SetAxisDeadZone axis zone
  | .SetAxisScale axis scale => g.SetAxisScale axis scale
  | .SetAxisMap axis gameaxis => some (g.SetAxisMap axis gameaxis)
  | .SetSensitivity scale => some (g.SetSensitivity scale)
  | .SetEnabled enabled => some (g.SetEnabled enabled)
  | .SetDefaultConfig => some g.SetDefaultConfig

/-- A sequence of configuration calls on a gamepad, first call first. -/
def SDLInputGamepad.calls (g : SDLInputGamepad) : List ConfigCall → Option SDLInputGamepad
  | [] => some g
  | c :: cs =>
      match g.call c with
      | some g2 => g2.calls cs
      | none => none

/-! ## Concrete devices used to instantiate the theorems -/

/-- Two attached devices: index 0 is a classic joystick with two axes and one
hat, index 1 is a game controller. Every first axis is pushed fully one way
(sample 32767), every other axis rests, the hat reports its "left" bit and no
button is pressed. -/
def sdlA : SDL :=
  { SDL_NumJoysticks := 2
    SDL_IsGameController := fun i => i == 1
    SDL_JoystickOpen := fun i => if i < 2 then some (i + 1) else none
    SDL_JoystickNumAxes := fun _ => 2
    SDL_JoystickNumHats := fun _ => 1
    SDL_JoystickGetAxis := fun _ a => if a = 0 then 32767 else 0
    SDL_JoystickGetHat := fun _ _ => 2
    SDL_GameControllerOpen := fun i => if i = 1 then some 2 else none
    SDL_GameControllerGetAxis := fun _ a => if a = 0 then 32767 else 0
    SDL_GameControllerGetButton := fun _ _ => 0 }

/-- The classic joystick at device index 0 after one polling pass: its first
axis holds the value 1. -/
def joyA : SDLInputJoystick :=
  ((SDLInputJoystick.new sdlA 0).ProcessInput (specMJoy (1 / 2) (1 / 2)) sdlA).1

/-- The gamepad at device index 1 right after its construction. -/
def padA : SDLInputGamepad := SDLInputGamepad.new sdlA 1 1

/-- The members a polling pass never changes, and the size of the axis table. -/
def SameShape (j : SDLInputJoystick) (s : SDLInputJoystick × List ButtonEvent) : Prop :=
  s.1.NumAxes = j.NumAxes ∧ s.1.NumHats = j.NumHats ∧ s.1.Device = j.Device ∧
    s.1.Axes.length = j.Axes.length

/-! ## Construction and destruction with their effects -/

/-- A call that reaches outside the adapters and is recorded on the effect
trace: opening and closing SDL handles, and `M_SaveJoystickConfig` (defined
outside this file) with the adapter it is given. -/
inductive Effect where
  | SDL_JoystickOpen (DeviceIndex : Nat)
  | SDL_GameControllerOpen (DeviceIndex : Nat)
  | M_SaveJoystickConfig (joy : IConfigurableJoystick)
  | SDL_JoystickClose (Device : Option Nat)
  | SDL_GameControllerClose (pad : Option Nat)
  deriving DecidableEq, Repr

/-- Effects of the constructor `SDLInputJoystick(DeviceIndex)`: one
`SDL_JoystickOpen(DeviceIndex)`. -/
def SDLInputJoystick.newEffects (DeviceIndex : Nat) : List Effect :=
  [Effect.SDL_JoystickOpen DeviceIndex]

/-- The destructor `~SDLInputJoystick()`:
`if (Device != NULL) M_SaveJoystickConfig(this); SDL_JoystickClose(Device);`. -/
def SDLInputJoystick.destroy (j : SDLInputJoystick) : List Effect :=
  (if j.Device ≠ none then [Effect.M_SaveJoystickConfig (IConfigurableJoystick.joystick j)]
    else [])
    ++ [Effect.SDL_JoystickClose j.Device]

/-- Effects of the constructor `SDLInputGamepad(DeviceIndex)`: one
`SDL_GameControllerOpen(DeviceIndex)`. -/
def SDLInputGamepad.newEffects (DeviceIndex : Nat) : List Effect :=
  [Effect.SDL_GameControllerOpen DeviceIndex]

/-- The destructor `~SDLInputGamepad()`: `SDL_GameControllerClose(_Gamepad);`. -/
def SDLInputGamepad.destroy (g : SDLInputGamepad) : List Effect :=
  [Effect.SDL_GameControllerClose g._Gamepad]

/-- `delete device` through the interface pointer: the adapter's own
destructor (the destructors are virtual, as `virtual ~SDLInputGamepad()`
shows). -/
def IConfigurableJoystick.destroy : IConfigurableJoystick → List Effect
  | joystick j => j.destroy
  | gamepad g => g.destroy

/-- What the manager's constructor leaves behind: the array `Joysticks`, the
effect trace, and the heap, that is the adapters allocated with `new` and not
deleted, in allocation order. -/
structure Enumeration where
  Joysticks : List IConfigurableJoystick
  trace : List Effect
  live : List IConfigurableJoystick
  deriving DecidableEq, Repr

namespace SDLInputJoystickManager

/-- The adapter the `if (SDL_IsGameController(i)) ... else ...` of the
constructor assigns to `device`; `uninit i` is what the uninitialised
`Multiplier` of a gamepad allocated for index `i` holds. -/
def newDevice (sdl : SDL) (uninit : Nat → ℚ) (i : Nat) : IConfigurableJoystick :=
  if sdl.SDL_IsGameController i then
    IConfigurableJoystick.gamepad (SDLInputGamepad.new sdl i (uninit i))
  else IConfigurableJoystick.joystick (SDLInputJoystick.new sdl i)

/-- Body of the constructor's loop for device index `i`:
`device = new SDLInputJoystick(i)`, then `device` is overwritten with the
adapter of `newDevice`, which is pushed when valid and deleted otherwise. The
adapter allocated first is never deleted and stays on the heap. -/
def enumStep (sdl : SDL) (uninit : Nat → ℚ) (i : Nat) (s : Enumeration) : Enumeration :=
  let first := IConfigurableJoystick.joystick (SDLInputJoystick.new sdl i)
  let trace1 := s.trace ++ SDLInputJoystick.newEffects i
  let live1 := s.live ++ [first]
  let device := newDevice sdl uninit i
  let trace2 := trace1 ++
    (if sdl.SDL_IsGameController i then SDLInputGamepad.newEffects i
      else SDLInputJoystick.newEffects i)
  if device.IsValid then
    { Joysticks := s.Joysticks ++ [device], trace := trace2, live := live1 ++ [device] }
  else
    { Joysticks := s.Joysticks, trace := trace2 ++ device.destroy, live := live1 }

/-- The constructor `SDLInputJoystickManager()`: one pass over the indices
below `SDL_NumJoysticks()`. -/
def new (sdl : SDL) (uninit : Nat → ℚ) : Enumeration :=
  forLoop sdl.SDL_NumJoysticks (enumStep sdl uninit)
    { Joysticks := [], trace := [], live := [] }

end SDLInputJoystickManager

/-- Whether an effect is a device open (`SDL_JoystickOpen` or
`SDL_GameControllerOpen`). -/
def Effect.isOpen : Effect → Bool
  | Effect.SDL_JoystickOpen _ => true
  | Effect.SDL_GameControllerOpen _ => true
  | _ => false

/-! ## Device identifier -/

/-- The characters `%d` prints for a non-negative value: its decimal digits,
most significant first, and `0` for zero. -/
def decimalDigits (n : Nat) : List Char :=
  if n = 0 then ['0'] else (Nat.digits 10 n).reverse.map Nat.digitChar

/-- The characters `%d` prints for an `int`. -/
def formatInt (i : Int) : List Char :=
  if i < 0 then '-' :: decimalDigits i.natAbs else decimalDigits i.natAbs

/-- What `snprintf(buf, size, ...)` leaves in `buf` before the terminating
NUL: at most `size - 1` characters of the formatted output. -/
def snprintf (size : Nat) (output : List Char) : List Char :=
  output.take (size - 1)

/-- The body of `GetIdentifier()` for a given value of `DeviceIndex`:
`char id[16]; snprintf(id, countof(id), "JS:%d", DeviceIndex); return id;`. -/
def identifierOf (DeviceIndex : Int) : String :=
  String.mk (snprintf 16 ("JS:".toList ++ formatInt DeviceIndex))

/-- `SDLInputJoystick::GetIdentifier()` -/
def SDLInputJoystick.GetIdentifier (j : SDLInputJoystick) : String :=
  identifierOf j.DeviceIndex

/-- The devices of `sdlA` with every axis of every device at the lowest sample
a signed 16-bit value can take, -32768. -/
def sdlB : SDL :=
  { sdlA with
    SDL_JoystickGetAxis := fun _ _ => -32768
    SDL_GameControllerGetAxis := fun _ _ => -32768 }

/-! ## The state a polling pass leaves behind -/

/-- The entry the first loop of `ProcessInput` leaves for physical axis `i`
when the entry it finds is `a`. -/
def SDLInputJoystick.axisEntry (lib : MJoy) (sdl : SDL) (j : SDLInputJoystick) (i : Nat)
    (a : SDLInputJoystick.AxisInfo) : SDLInputJoystick.AxisInfo :=
  { a with
    Value := (lib.Joy_RemoveDeadZone ((SDLInputJoystick.rawAxis sdl j i : ℚ) / 32767) a.DeadZone).1
    ButtonValue :=
      if j.NumAxes = 1 ∨ (i ≥ 2 ∧ i < lib.NUM_JOYAXISBUTTONS) then
        (lib.Joy_RemoveDeadZone ((SDLInputJoystick.rawAxis sdl j i : ℚ) / 32767) a.DeadZone).2 % 256
      else a.ButtonValue }

/-- The entry the hat loop leaves for the synthetic X axis of hat `i` when the
entry it finds is `x`. -/
def SDLInputJoystick.hatXEntry (sdl : SDL) (j : SDLInputJoystick) (i : Nat)
    (x : SDLInputJoystick.AxisInfo) : SDLInputJoystick.AxisInfo :=
  { x with
    Value := SDLInputJoystick.hatX (SDLInputJoystick.rawHat sdl j i)
    ButtonValue := if i < 4 then SDLInputJoystick.rawHat sdl j i else x.ButtonValue }

/-- The entry the hat loop leaves for the synthetic Y axis of hat `i` when the
entry it finds is `y`. -/
def SDLInputJoystick.hatYEntry (sdl : SDL) (j : SDLInputJoystick) (i : Nat)
    (y : SDLInputJoystick.AxisInfo) : SDLInputJoystick.AxisInfo :=
  { y with Value := SDLInputJoystick.hatY (SDLInputJoystick.rawHat sdl j i) }

/-- The physical axes below `k` hold what the device reports now: each stored
value is the dead-zone-removed sample, and each axis that owns a button pair
stores the status byte of that sample. -/
def SDLInputJoystick.AxesPolled (lib : MJoy) (sdl : SDL) (j : SDLInputJoystick) (k : Nat) : Prop :=
  ∀ i a, i < k → j.Axes[i]? = some a → SDLInputJoystick.axisEntry lib sdl j i a = a

/-- The button group of the first two axes stores the status computed from
their stored values. -/
def SDLInputJoystick.XYPolled (lib : MJoy) (j : SDLInputJoystick) : Prop :=
  j.NumAxes > 1 → ∀ a0 a1, j.Axes[0]? = some a0 → j.Axes[1]? = some a1 →
    a0.ButtonValue = lib.Joy_XYAxesToButtons a0.Value a1.Value % 256

/-- The synthetic axes of the hats below `k` hold what the device reports now:
the decoded values, and for the first four hats the hat byte as button status. -/
def SDLInputJoystick.HatsPolled (sdl : SDL) (j : SDLInputJoystick) (k : Nat) : Prop :=
  ∀ i, i < k →
    (∀ x, j.Axes[j.NumAxes + i * 2]? = some x → SDLInputJoystick.hatXEntry sdl j i x = x) ∧
    (∀ y, j.Axes[j.NumAxes + i * 2 + 1]? = some y → SDLInputJoystick.hatYEntry sdl j i y = y)

/-- Every stored axis value and every stored button-status byte of a classic
joystick equals what a polling pass computes from the device's current
samples. -/
def SDLInputJoystick.Polled (lib : MJoy) (sdl : SDL) (j : SDLInputJoystick) : Prop :=
  j.AxesPolled lib sdl j.NumAxes ∧ j.XYPolled lib ∧ j.HatsPolled sdl j.NumHats

/-- Every stored button-status byte of a gamepad equals what a polling pass
computes from the device's current samples. -/
def SDLInputGamepad.Polled (lib : MJoy) (sdl : SDL) (g : SDLInputGamepad) : Prop :=
  (g.ProcessInput lib sdl).1 = g

/-- The entry the block `if (NumAxes > 1)` of `ProcessInput` leaves for axis 0
when it finds `a0` there and `a1` at axis 1. -/
def SDLInputJoystick.xyEntry (lib : MJoy) (a1 a0 : SDLInputJoystick.AxisInfo) :
    SDLInputJoystick.AxisInfo :=
  { a0 with ButtonValue := lib.Joy_XYAxesToButtons a0.Value a1.Value % 256 }

/-- The edge detector posts nothing for a button group whose previous and
current status are equal. -/
def MJoy.QuietWhenUnchanged (lib : MJoy) : Prop :=
  ∀ buttons numbuttons base, lib.Joy_GenerateButtonEvents buttons buttons numbuttons base = []

/-! # Theorems

## Loop and array lemmas -/

theorem forLoop_succ {σ : Type} (n : Nat) (body : Nat → σ → σ) (s : σ) :
    forLoop (n + 1) body s = body n (forLoop n body s) := rfl

/-- Loop invariant rule. -/
theorem forLoop_invariant {σ : Type} (P : Nat → σ → Prop) (n : Nat) (body : Nat → σ → σ)
    (s : σ) (h0 : P 0 s) (hstep : ∀ i t, i < n → P i t → P (i + 1) (body i t)) :
    P n (forLoop n body s) := by
  induction n with
  | zero => exact h0
  | succ k ih =>
      rw [forLoop_succ]
      exact hstep k _ (Nat.lt_succ_self k)
        (ih (fun i t hi hP => hstep i t (Nat.lt_succ_of_lt hi) hP))

theorem length_modifyAt {α : Type} (l : List α) (i : Nat) (f : α → α) :
    (modifyAt l i f).length = l.length := by
  unfold modifyAt
  cases h : l[i]? <;> simp

theorem getElem?_modifyAt {α : Type} (l : List α) (i k : Nat) (f : α → α) :
    (modifyAt l i f)[k]? = if k = i then (l[k]?).map f else l[k]? := by
  unfold modifyAt
  by_cases hk : k = i
  · subst hk
    cases h : l[k]? with
    | none => simp [h]
    | some a =>
        have hlt : k < l.length := by
          by_contra hge
          rw [List.getElem?_eq_none (Nat.le_of_not_lt hge)] at h
          cases h
        simp [h, hlt]
  · cases h : l[i]? with
    | none => simp [hk]
    | some a => simp [hk, List.getElem?_set_ne (Ne.symm hk)]

/-! ## Dead-zone setters -/

theorem clamp_mem (z : ℚ) : MIN_DEADZONE ≤ clamp z MIN_DEADZONE 1 ∧ clamp z MIN_DEADZONE 1 ≤ 1 := by
  have hmin : MIN_DEADZONE < 1 := by norm_num [MIN_DEADZONE]
  unfold clamp
  constructor <;> split_ifs <;> linarith

theorem clamp_of_mem (z : ℚ) (h1 : MIN_DEADZONE ≤ z) (h2 : z ≤ 1) : clamp z MIN_DEADZONE 1 = z := by
  unfold clamp
  split_ifs <;> linarith

theorem clamp_of_lt (z : ℚ) (h : z < MIN_DEADZONE) : clamp z MIN_DEADZONE 1 = MIN_DEADZONE := by
  unfold clamp
  split_ifs <;> linarith

theorem clamp_of_gt (z : ℚ) (h : 1 < z) : clamp z MIN_DEADZONE 1 = 1 := by
  have hmin : MIN_DEADZONE < 1 := by norm_num [MIN_DEADZONE]
  unfold clamp
  split_ifs <;> linarith

/-- C5: on a classic joystick, for every index `a` inside the axis table and
every value `z`, `SetAxisDeadZone(a, z)` succeeds and afterwards
`GetAxisDeadZone(a)` returns `z` clamped into `[MIN_DEADZONE, 1]`: `z` itself
when it is in range, `MIN_DEADZONE` when it is below, `1` when it is above; the
dead zone of every other axis is unchanged. -/
theorem c5_joystick_deadzone_setter_clamps (j : SDLInputJoystick) (a : Nat) (z : ℚ)
    (ha : a < j.Axes.length) :
    ∃ j2, j.SetAxisDeadZone a z = some j2 ∧
      j2.GetAxisDeadZone a = some (clamp z MIN_DEADZONE 1) ∧
      MIN_DEADZONE ≤ clamp z MIN_DEADZONE 1 ∧ clamp z MIN_DEADZONE 1 ≤ 1 ∧
      (MIN_DEADZONE ≤ z → z ≤ 1 → j2.GetAxisDeadZone a = some z) ∧
      (z < MIN_DEADZONE → j2.GetAxisDeadZone a = some MIN_DEADZONE) ∧
      (1 < z → j2.GetAxisDeadZone a = some 1) ∧
      ∀ b, b ≠ a → j2.GetAxisDeadZone b = j.GetAxisDeadZone b := by
  have hget : j.Axes[a]? = some j.Axes[a] := List.getElem?_eq_getElem ha
  refine ⟨{ j with Axes := j.Axes.set a { j.Axes[a] with DeadZone := clamp z MIN_DEADZONE 1 } },
    by simp [SDLInputJoystick.SetAxisDeadZone, hget], ?_⟩
  have hstored : SDLInputJoystick.GetAxisDeadZone
      { j with Axes := j.Axes.set a { j.Axes[a] with DeadZone := clamp z MIN_DEADZONE 1 } } a
        = some (clamp z MIN_DEADZONE 1) := by
    simp [SDLInputJoystick.GetAxisDeadZone, ha]
  refine ⟨hstored, (clamp_mem z).1, (clamp_mem z).2, ?_, ?_, ?_, ?_⟩
  · intro h1 h2
    rw [hstored, clamp_of_mem z h1 h2]
  · intro h
    rw [hstored, clamp_of_lt z h]
  · intro h
    rw [hstored, clamp_of_gt z h]
  · intro b hb
    simp [SDLInputJoystick.GetAxisDeadZone, List.getElem?_set_ne (Ne.symm hb)]

/-- C5 at a concrete input: axis 0 of the joystick at device index 0, `z = -5`. -/
theorem c5_witness :
    0 < (SDLInputJoystick.new sdlA 0).Axes.length ∧
    ∃ j2, (SDLInputJoystick.new sdlA 0).SetAxisDeadZone 0 (-5) = some j2 ∧
      j2.GetAxisDeadZone 0 = some (clamp (-5) MIN_DEADZONE 1) ∧
      MIN_DEADZONE ≤ clamp (-5) MIN_DEADZONE 1 ∧ clamp (-5) MIN_DEADZONE 1 ≤ 1 ∧
      (MIN_DEADZONE ≤ -5 → -5 ≤ (1 : ℚ) → j2.GetAxisDeadZone 0 = some (-5)) ∧
      (-5 < MIN_DEADZONE → j2.GetAxisDeadZone 0 = some MIN_DEADZONE) ∧
      ((1 : ℚ) < -5 → j2.GetAxisDeadZone 0 = some 1) ∧
      ∀ b, b ≠ 0 → j2.GetAxisDeadZone b = (SDLInputJoystick.new sdlA 0).GetAxisDeadZone b :=
  ⟨by decide, c5_joystick_deadzone_setter_clamps (SDLInputJoystick.new sdlA 0) 0 (-5) (by decide)⟩

/-- C6 at the failing input: on the gamepad opened at device index 1,
`SetAxisDeadZone(0, 0.5)` stores the clamped value `0.5` in `AxisSettings[0]`,
yet `GetAxisDeadZone(0)` afterwards returns `0`, not `0.5`. -/
theorem c6_gamepad_deadzone_getter_returns_zero :
    ∃ g2, (SDLInputGamepad.new sdlA 1 1).SetAxisDeadZone 0 (1 / 2) = some g2 ∧
      g2.storedDeadZone 0 = 1 / 2 ∧
      clamp (1 / 2) MIN_DEADZONE 1 = 1 / 2 ∧
      g2.GetAxisDeadZone 0 = 0 := by
  refine ⟨_, rfl, ?_, ?_, rfl⟩
  · norm_num [SDLInputGamepad.storedDeadZone, SDLInputGamepad.new, SDL_CONTROLLER_AXIS_MAX,
      clamp, MIN_DEADZONE]
  · norm_num [clamp, MIN_DEADZONE]

/-! ## Game-axis mapping -/

/-- C10: on a gamepad `SetAxisMap` changes nothing, alone or in any sequence of
calls; `GetAxisMap` returns the built-in table (left X to side, left Y to
forward, right X to yaw, right Y to pitch, left trigger to up, any other index
to none) in every state, and `IsAxisMapDefault` is true for every axis in every
state. -/
theorem c10_gamepad_axis_map_fixed (g : SDLInputGamepad) (calls : List (Nat × EJoyAxis))
    (a : Nat) (gameaxis : EJoyAxis) :
    g.SetAxisMap a gameaxis = g ∧
    calls.foldl (fun s c => s.SetAxisMap c.1 c.2) g = g ∧
    g.GetAxisMap SDL_CONTROLLER_AXIS_LEFTX = JOYAXIS_Side ∧
    g.GetAxisMap SDL_CONTROLLER_AXIS_LEFTY = JOYAXIS_Forward ∧
    g.GetAxisMap SDL_CONTROLLER_AXIS_RIGHTX = JOYAXIS_Yaw ∧
    g.GetAxisMap SDL_CONTROLLER_AXIS_RIGHTY = JOYAXIS_Pitch ∧
    g.GetAxisMap SDL_CONTROLLER_AXIS_TRIGGERLEFT = JOYAXIS_Up ∧
    ((a ≠ SDL_CONTROLLER_AXIS_LEFTX ∧ a ≠ SDL_CONTROLLER_AXIS_LEFTY ∧
        a ≠ SDL_CONTROLLER_AXIS_RIGHTX ∧ a ≠ SDL_CONTROLLER_AXIS_RIGHTY ∧
        a ≠ SDL_CONTROLLER_AXIS_TRIGGERLEFT) → g.GetAxisMap a = JOYAXIS_None) ∧
    (calls.foldl (fun s c => s.SetAxisMap c.1 c.2) g).GetAxisMap a = g.GetAxisMap a ∧
    g.IsAxisMapDefault a = true := by
  have hfold : calls.foldl (fun s c => s.SetAxisMap c.1 c.2) g = g := by
    induction calls with
    | nil => rfl
    | cons c cs ih => simp [List.foldl_cons, SDLInputGamepad.SetAxisMap]
  refine ⟨rfl, hfold, rfl, rfl, rfl, rfl, rfl, ?_, by rw [hfold], rfl⟩
  rintro ⟨h0, h1, h2, h3, h4⟩
  simp [SDLInputGamepad.GetAxisMap, h0, h1, h2, h3, h4]

/-- `SetDefaultConfig` appends one default entry per index below
`GetNumAxes()` to the axis table and changes nothing else. -/
theorem SetDefaultConfig_loop (j : SDLInputJoystick) (n : Nat) :
    forLoop n (fun i (s : SDLInputJoystick) =>
        { s with Axes := s.Axes ++ [SDLInputJoystick.defaultAxisInfo s.NumAxes i] }) j
      = { j with Axes := j.Axes
            ++ (List.range n).map (SDLInputJoystick.defaultAxisInfo j.NumAxes) } := by
  induction n with
  | zero => simp [forLoop]
  | succ k ih => rw [forLoop_succ, ih]; simp [List.range_succ]

theorem SetDefaultConfig_eq (j : SDLInputJoystick) :
    j.SetDefaultConfig = { j with Axes := j.Axes
      ++ (List.range j.GetNumAxes).map (SDLInputJoystick.defaultAxisInfo j.NumAxes) } :=
  SetDefaultConfig_loop j j.GetNumAxes

/-- The classic joystick right after a construction whose open succeeded. -/
theorem new_eq_of_open (sdl : SDL) (DeviceIndex dev : Nat)
    (hopen : sdl.SDL_JoystickOpen DeviceIndex = some dev) :
    SDLInputJoystick.new sdl DeviceIndex =
      { DeviceIndex := DeviceIndex, Device := some dev, Multiplier := 1, Enabled := true,
        Axes := (List.range (sdl.SDL_JoystickNumAxes dev + sdl.SDL_JoystickNumHats dev * 2)).map
          (SDLInputJoystick.defaultAxisInfo (sdl.SDL_JoystickNumAxes dev)),
        NumAxes := sdl.SDL_JoystickNumAxes dev, NumHats := sdl.SDL_JoystickNumHats dev } := by
  simp [SDLInputJoystick.new, hopen, SetDefaultConfig_eq, SDLInputJoystick.GetNumAxes]

theorem defaultAxisInfo_GameAxis (n i : Nat) :
    (SDLInputJoystick.defaultAxisInfo n i).GameAxis
      = (if i = 0 then JOYAXIS_Side else if i = 1 then JOYAXIS_Forward
          else if i = 2 then JOYAXIS_None else if i = 3 then JOYAXIS_Yaw
          else if i = 4 then JOYAXIS_Pitch else JOYAXIS_None) := by
  by_cases h5 : i ≥ 5
  · have : ¬ i = 0 ∧ ¬ i = 1 ∧ ¬ i = 2 ∧ ¬ i = 3 ∧ ¬ i = 4 := by omega
    simp [SDLInputJoystick.defaultAxisInfo, h5, this]
  · have h5 : i < 5 := by omega
    interval_cases i <;> rfl

/-- C8: right after the construction of a classic joystick whose device opened,
the axis table has exactly `GetNumAxes() = NumAxes + 2*NumHats` entries and,
for every index `i` below that, `GetAxisMap(i)` is side, forward, none, yaw,
pitch for `i = 0..4` and none for `i >= 5`, the dead zone is 0.25, the scale is
1, the value is 0 and the button status is 0. -/
theorem c8_joystick_default_axis_mapping (sdl : SDL) (DeviceIndex dev : Nat)
    (hopen : sdl.SDL_JoystickOpen DeviceIndex = some dev) :
    (SDLInputJoystick.new sdl DeviceIndex).IsValid = true ∧
    (SDLInputJoystick.new sdl DeviceIndex).GetNumAxes
      = sdl.SDL_JoystickNumAxes dev + 2 * sdl.SDL_JoystickNumHats dev ∧
    (SDLInputJoystick.new sdl DeviceIndex).Axes.length
      = (SDLInputJoystick.new sdl DeviceIndex).GetNumAxes ∧
    ∀ i, i < (SDLInputJoystick.new sdl DeviceIndex).GetNumAxes →
      (SDLInputJoystick.new sdl DeviceIndex).GetAxisMap i
        = some (if i = 0 then JOYAXIS_Side else if i = 1 then JOYAXIS_Forward
            else if i = 2 then JOYAXIS_None else if i = 3 then JOYAXIS_Yaw
            else if i = 4 then JOYAXIS_Pitch else JOYAXIS_None) ∧
      (SDLInputJoystick.new sdl DeviceIndex).GetAxisDeadZone i = some (1 / 4) ∧
      (SDLInputJoystick.new sdl DeviceIndex).GetAxisScale i = some 1 ∧
      ((SDLInputJoystick.new sdl DeviceIndex).Axes[i]?).map (fun x => x.Value) = some 0 ∧
      ((SDLInputJoystick.new sdl DeviceIndex).Axes[i]?).map (fun x => x.ButtonValue) = some 0 := by
  rw [new_eq_of_open sdl DeviceIndex dev hopen]
  refine ⟨rfl, by simp [SDLInputJoystick.GetNumAxes]; ring, by simp [SDLInputJoystick.GetNumAxes], ?_⟩
  intro i hi
  simp only [SDLInputJoystick.GetNumAxes] at hi
  refine ⟨?_, ?_, ?_, ?_, ?_⟩
  · simp [SDLInputJoystick.GetAxisMap, hi, defaultAxisInfo_GameAxis]
  · simp [SDLInputJoystick.GetAxisDeadZone, hi, SDLInputJoystick.defaultAxisInfo,
      DEFAULT_DEADZONE]
  · simp [SDLInputJoystick.GetAxisScale, hi, SDLInputJoystick.defaultAxisInfo]
  · simp [hi, SDLInputJoystick.defaultAxisInfo]
  · simp [hi, SDLInputJoystick.defaultAxisInfo]

/-- C8 at a concrete input: the joystick at device index 0, which opens with
handle 1, two axes and one hat. -/
theorem c8_witness :
    sdlA.SDL_JoystickOpen 0 = some 1 ∧
    ((SDLInputJoystick.new sdlA 0).IsValid = true ∧
    (SDLInputJoystick.new sdlA 0).GetNumAxes
      = sdlA.SDL_JoystickNumAxes 1 + 2 * sdlA.SDL_JoystickNumHats 1 ∧
    (SDLInputJoystick.new sdlA 0).Axes.length = (SDLInputJoystick.new sdlA 0).GetNumAxes ∧
    ∀ i, i < (SDLInputJoystick.new sdlA 0).GetNumAxes →
      (SDLInputJoystick.new sdlA 0).GetAxisMap i
        = some (if i = 0 then JOYAXIS_Side else if i = 1 then JOYAXIS_Forward
            else if i = 2 then JOYAXIS_None else if i = 3 then JOYAXIS_Yaw
            else if i = 4 then JOYAXIS_Pitch else JOYAXIS_None) ∧
      (SDLInputJoystick.new sdlA 0).GetAxisDeadZone i = some (1 / 4) ∧
      (SDLInputJoystick.new sdlA 0).GetAxisScale i = some 1 ∧
      ((SDLInputJoystick.new sdlA 0).Axes[i]?).map (fun x => x.Value) = some 0 ∧
      ((SDLInputJoystick.new sdlA 0).Axes[i]?).map (fun x => x.ButtonValue) = some 0) :=
  ⟨by decide, c8_joystick_default_axis_mapping sdlA 0 1 (by decide)⟩

/-! ## Device manager -/

/-- The loop of `GetDevices` after `k` slots: the slots pushed so far and the
adapters the configuration loader has visited. -/
theorem GetDevices_loop (load : IConfigurableJoystick → IConfigurableJoystick)
    (m : SDLInputJoystickManager) (sticks : List Nat) (k : Nat) :
    (forLoop k (fun i (s : SDLInputJoystickManager × List Nat) =>
        (({ s.1 with Joysticks := modifyAt s.1.Joysticks i load } : SDLInputJoystickManager),
          s.2 ++ [i])) (m, sticks)).2 = sticks ++ List.range k ∧
    ∀ i, (forLoop k (fun i (s : SDLInputJoystickManager × List Nat) =>
        (({ s.1 with Joysticks := modifyAt s.1.Joysticks i load } : SDLInputJoystickManager),
          s.2 ++ [i])) (m, sticks)).1.Joysticks[i]?
      = if i < k then (m.Joysticks[i]?).map load else m.Joysticks[i]? := by
  induction k with
  | zero => simp [forLoop]
  | succ k ih =>
      rw [forLoop_succ]
      refine ⟨by simp [ih.1, List.range_succ], ?_⟩
      intro i
      simp only [getElem?_modifyAt, ih.2]
      by_cases hik : i = k
      · subst hik; simp
      · by_cases hlt : i < k
        · simp [hik, hlt, Nat.lt_succ_of_lt hlt]
        · have : ¬ i < k + 1 := by omega
          simp [hik, hlt, this]

theorem GetDevices_eq (load : IConfigurableJoystick → IConfigurableJoystick)
    (m : SDLInputJoystickManager) (sticks : List Nat) :
    m.GetDevices load sticks
      = ({ Joysticks := m.Joysticks.map load }, sticks ++ List.range m.Joysticks.length) := by
  have h := GetDevices_loop load m sticks m.Joysticks.length
  refine Prod.ext ?_ h.1
  show (m.GetDevices load sticks).1 = { Joysticks := m.Joysticks.map load }
  have hJ : (m.GetDevices load sticks).1.Joysticks = m.Joysticks.map load := by
    apply List.ext_getElem?
    intro i
    have hi := h.2 i
    unfold SDLInputJoystickManager.GetDevices
    rw [hi, List.getElem?_map]
    by_cases hlt : i < m.Joysticks.length
    · simp [hlt]
    · simp [hlt, List.getElem?_eq_none (Nat.le_of_not_lt hlt)]
  cases hm : (m.GetDevices load sticks).1
  rw [hm] at hJ
  simp only at hJ
  rw [hJ]

theorem SetEnabledAt_fold_length (m : SDLInputJoystickManager) (calls : List (Nat × Bool)) :
    (calls.foldl (fun s c => s.SetEnabledAt c.1 c.2) m).Joysticks.length = m.Joysticks.length := by
  induction calls generalizing m with
  | nil => rfl
  | cons c cs ih =>
      rw [List.foldl_cons, ih]
      simp [SDLInputJoystickManager.SetEnabledAt, length_modifyAt]

/-- C3: after any sequence of `SetEnabled` calls on the manager's devices,
`I_GetJoysticks` discards the old contents of the output list and returns the
manager's slots `0, 1, ..., n-1`, each once and in order, where `n` is the
number of devices; every adapter is still held by the manager (the
configuration loader has been run on each); with no manager the returned list
is empty. -/
theorem c3_disabled_device_stays_enumerable
    (load : IConfigurableJoystick → IConfigurableJoystick) (m : SDLInputJoystickManager)
    (calls : List (Nat × Bool)) (sticks : List Nat) :
    (I_GetJoysticks load (some (calls.foldl (fun s c => s.SetEnabledAt c.1 c.2) m)) sticks).2
      = List.range m.Joysticks.length ∧
    (I_GetJoysticks load (some (calls.foldl (fun s c => s.SetEnabledAt c.1 c.2) m)) sticks).1
      = some { Joysticks :=
          (calls.foldl (fun s c => s.SetEnabledAt c.1 c.2) m).Joysticks.map load } ∧
    (calls.foldl (fun s c => s.SetEnabledAt c.1 c.2) m).Joysticks.length
      = m.Joysticks.length ∧
    I_GetJoysticks load none sticks = (none, []) := by
  refine ⟨?_, ?_, SetEnabledAt_fold_length m calls, rfl⟩
  · simp [I_GetJoysticks, GetDevices_eq, SetEnabledAt_fold_length]
  · simp [I_GetJoysticks, GetDevices_eq]

/-- The polling loop of the manager after `k` slots. -/
theorem ProcessInput_loop (lib : MJoy) (sdl : SDL) (m : SDLInputJoystickManager) (k : Nat) :
    (forLoop k (SDLInputJoystickManager.pollStep lib sdl)
        { Joysticks := m.Joysticks, events := [], polled := [] }).polled
      = (List.range k).filter (fun i => (m.Joysticks[i]?).any (fun d => d.GetEnabled)) ∧
    (forLoop k (SDLInputJoystickManager.pollStep lib sdl)
        { Joysticks := m.Joysticks, events := [], polled := [] }).events
      = ((m.Joysticks.take k).filter (fun d => d.GetEnabled)).flatMap
          (fun d => (d.ProcessInput lib sdl).2) ∧
    ∀ i, (forLoop k (SDLInputJoystickManager.pollStep lib sdl)
        { Joysticks := m.Joysticks, events := [], polled := [] }).Joysticks[i]?
      = if i < k then
          (m.Joysticks[i]?).map (fun d => if d.GetEnabled then (d.ProcessInput lib sdl).1 else d)
        else m.Joysticks[i]? := by
  induction k with
  | zero => simp [forLoop]
  | succ k ih =>
      rw [forLoop_succ]
      obtain ⟨ihp, ihe, ihj⟩ := ih
      have hk := ihj k
      simp only [Nat.lt_irrefl, if_false] at hk
      cases hd : m.Joysticks[k]? with
      | none =>
          rw [hd] at hk
          have hstep : SDLInputJoystickManager.pollStep lib sdl k
              (forLoop k (SDLInputJoystickManager.pollStep lib sdl)
                { Joysticks := m.Joysticks, events := [], polled := [] })
              = forLoop k (SDLInputJoystickManager.pollStep lib sdl)
                { Joysticks := m.Joysticks, events := [], polled := [] } := by
            simp [SDLInputJoystickManager.pollStep, hk]
          rw [hstep]
          refine ⟨?_, ?_, ?_⟩
          · rw [ihp, List.range_succ, List.filter_append]; simp [hd]
          · rw [ihe, List.take_succ, hd]; simp
          · intro i
            rw [ihj i]
            by_cases hik : i = k
            · subst hik; simp [hd]
            · by_cases hlt : i < k
              · simp [hlt, Nat.lt_succ_of_lt hlt]
              · have : ¬ i < k + 1 := by omega
                simp [hlt, this]
      | some d =>
          rw [hd] at hk
          have hlen : k < (forLoop k (SDLInputJoystickManager.pollStep lib sdl)
                { Joysticks := m.Joysticks, events := [], polled := [] }).Joysticks.length := by
            by_contra hge
            rw [List.getElem?_eq_none (Nat.le_of_not_lt hge)] at hk
            cases hk
          by_cases hen : d.GetEnabled = true
          · refine ⟨?_, ?_, ?_⟩
            · simp [SDLInputJoystickManager.pollStep, hk, hen, ihp, List.range_succ,
                List.filter_append, hd]
            · simp [SDLInputJoystickManager.pollStep, hk, hen, ihe, List.take_succ, hd,
                List.filter_append]
            · intro i
              simp only [SDLInputJoystickManager.pollStep, hk, hen, if_true, List.getElem?_set]
              by_cases hik : k = i
              · subst hik; simp [hlen, hd, hen]
              · by_cases hlt : i < k
                · simp [hik, hlt, Nat.lt_succ_of_lt hlt, ihj i]
                · have : ¬ i < k + 1 := by omega
                  simp [hik, hlt, this, ihj i]
          · have hen2 : d.GetEnabled = false := by simpa using hen
            refine ⟨?_, ?_, ?_⟩
            · simp [SDLInputJoystickManager.pollStep, hk, hen2, ihp, List.range_succ,
                List.filter_append, hd]
            · simp [SDLInputJoystickManager.pollStep, hk, hen2, ihe, List.take_succ, hd,
                List.filter_append]
            · intro i
              simp only [SDLInputJoystickManager.pollStep, hk, hen2]
              by_cases hik : i = k
              · subst hik; simp [hk, hd, hen2]
              · by_cases hlt : i < k
                · simp [hlt, Nat.lt_succ_of_lt hlt, ihj i]
                · have : ¬ i < k + 1 := by omega
                  simp [hlt, this, ihj i]

/-- C2: one polling pass of the manager calls the per-device `ProcessInput` on
exactly the enabled slots, once each and in list order; the events posted are
those of the enabled devices, in that order; an enabled device is left in the
state its own `ProcessInput` produces and a disabled device is left exactly as
it was (axis values and button-status bytes included) and is never polled.
`I_ProcessJoysticks` runs this pass when `use_joystick` is on and a manager
exists. -/
theorem c2_poll_all_skips_disabled (lib : MJoy) (sdl : SDL) (m : SDLInputJoystickManager) :
    (m.ProcessInput lib sdl).polled
      = (List.range m.Joysticks.length).filter
          (fun i => (m.Joysticks[i]?).any (fun d => d.GetEnabled)) ∧
    (m.ProcessInput lib sdl).events
      = (m.Joysticks.filter (fun d => d.GetEnabled)).flatMap
          (fun d => (d.ProcessInput lib sdl).2) ∧
    (m.ProcessInput lib sdl).Joysticks
      = m.Joysticks.map (fun d => if d.GetEnabled then (d.ProcessInput lib sdl).1 else d) ∧
    (∀ i d, m.Joysticks[i]? = some d → d.GetEnabled = false →
      (m.ProcessInput lib sdl).Joysticks[i]? = some d ∧ i ∉ (m.ProcessInput lib sdl).polled) ∧
    I_ProcessJoysticks lib sdl true (some m) = some (m.ProcessInput lib sdl) := by
  obtain ⟨hp, he, hj⟩ := ProcessInput_loop lib sdl m m.Joysticks.length
  have hJ : (m.ProcessInput lib sdl).Joysticks
      = m.Joysticks.map (fun d => if d.GetEnabled then (d.ProcessInput lib sdl).1 else d) := by
    apply List.ext_getElem?
    intro i
    unfold SDLInputJoystickManager.ProcessInput
    rw [hj i, List.getElem?_map]
    by_cases hlt : i < m.Joysticks.length
    · simp [hlt]
    · simp [hlt, List.getElem?_eq_none (Nat.le_of_not_lt hlt)]
  have hP : (m.ProcessInput lib sdl).polled
      = (List.range m.Joysticks.length).filter
          (fun i => (m.Joysticks[i]?).any (fun d => d.GetEnabled)) := hp
  refine ⟨hP, ?_, hJ, ?_, rfl⟩
  · unfold SDLInputJoystickManager.ProcessInput
    rw [he, List.take_length]
  · intro i d hd hen
    refine ⟨?_, ?_⟩
    · rw [hJ, List.getElem?_map, hd]; simp [hen]
    · rw [hP]; simp [hd, hen]

/-! ## Polling a classic joystick -/

theorem axisStep_shape (lib : MJoy) (sdl : SDL) (j : SDLInputJoystick) (i : Nat)
    (s : SDLInputJoystick × List ButtonEvent) (hs : SameShape j s) :
    SameShape j (SDLInputJoystick.axisStep lib sdl i s) := by
  obtain ⟨h1, h2, h3, h4⟩ := hs
  unfold SDLInputJoystick.axisStep
  dsimp only
  cases ha : s.1.Axes[i]? with
  | none => exact ⟨h1, h2, h3, h4⟩
  | some a =>
      dsimp only
      split_ifs <;> exact ⟨h1, h2, h3, by simpa using h4⟩

theorem xyStep_shape (lib : MJoy) (j : SDLInputJoystick)
    (s : SDLInputJoystick × List ButtonEvent) (hs : SameShape j s) :
    SameShape j (SDLInputJoystick.xyStep lib s) := by
  obtain ⟨h1, h2, h3, h4⟩ := hs
  unfold SDLInputJoystick.xyStep
  dsimp only
  split_ifs
  · split
    · exact ⟨h1, h2, h3, by simpa using h4⟩
    · exact ⟨h1, h2, h3, h4⟩
  · exact ⟨h1, h2, h3, h4⟩

theorem hatStep_shape (lib : MJoy) (sdl : SDL) (j : SDLInputJoystick) (i : Nat)
    (s : SDLInputJoystick × List ButtonEvent) (hs : SameShape j s) :
    SameShape j (SDLInputJoystick.hatStep lib sdl i s) := by
  obtain ⟨h1, h2, h3, h4⟩ := hs
  unfold SDLInputJoystick.hatStep
  dsimp only
  split_ifs
  · split
    · exact ⟨h1, h2, h3, by simpa [length_modifyAt] using h4⟩
    · exact ⟨h1, h2, h3, by simpa [length_modifyAt] using h4⟩
  · exact ⟨h1, h2, h3, by simpa [length_modifyAt] using h4⟩

theorem hatStep_axes (lib : MJoy) (sdl : SDL) (i : Nat)
    (s : SDLInputJoystick × List ButtonEvent) :
    (SDLInputJoystick.hatStep lib sdl i s).1.Axes
      = if i < 4 then
          match (modifyAt (modifyAt s.1.Axes (s.1.NumAxes + i * 2 + 1)
            (fun y => { y with Value := SDLInputJoystick.hatY (SDLInputJoystick.rawHat sdl s.1 i) }))
          (s.1.NumAxes + i * 2)
            (fun x => { x with Value := SDLInputJoystick.hatX (SDLInputJoystick.rawHat sdl s.1 i) }))[s.1.NumAxes + i * 2]? with
          | some x =>
              (modifyAt (modifyAt s.1.Axes (s.1.NumAxes + i * 2 + 1)
                (fun y => { y with Value := SDLInputJoystick.hatY (SDLInputJoystick.rawHat sdl s.1 i) }))
              (s.1.NumAxes + i * 2)
                (fun x => { x with Value := SDLInputJoystick.hatX (SDLInputJoystick.rawHat sdl s.1 i) })).set
                (s.1.NumAxes + i * 2) { x with ButtonValue := SDLInputJoystick.rawHat sdl s.1 i }
          | none =>
              modifyAt (modifyAt s.1.Axes (s.1.NumAxes + i * 2 + 1)
                (fun y => { y with Value := SDLInputJoystick.hatY (SDLInputJoystick.rawHat sdl s.1 i) }))
              (s.1.NumAxes + i * 2)
                (fun x => { x with Value := SDLInputJoystick.hatX (SDLInputJoystick.rawHat sdl s.1 i) })
        else
          modifyAt (modifyAt s.1.Axes (s.1.NumAxes + i * 2 + 1)
            (fun y => { y with Value := SDLInputJoystick.hatY (SDLInputJoystick.rawHat sdl s.1 i) }))
          (s.1.NumAxes + i * 2)
            (fun x => { x with Value := SDLInputJoystick.hatX (SDLInputJoystick.rawHat sdl s.1 i) }) := by
  unfold SDLInputJoystick.hatStep
  dsimp only
  by_cases h4 : i < 4
  · simp only [h4, if_true]
    split <;> rfl
  · simp only [h4, if_false]

/-- Storing a button byte in an entry does not change any axis value. -/
theorem value_set_button (l : List SDLInputJoystick.AxisInfo) (k idx b : Nat)
    (x : SDLInputJoystick.AxisInfo) (hx : l[k]? = some x) :
    ((l.set k { x with ButtonValue := b })[idx]?).map (fun a => a.Value)
      = (l[idx]?).map (fun a => a.Value) := by
  rw [List.getElem?_set]
  by_cases hk : k = idx
  · subst hk
    have hlt : k < l.length := by
      by_contra hge
      rw [List.getElem?_eq_none (Nat.le_of_not_lt hge)] at hx
      cases hx
    simp [hlt, hx]
  · simp [hk]

/-- The values one iteration of the hat loop leaves in the axis table: the two
synthetic axes of hat `i` get the values decoded from the hat byte, every other
axis keeps its value. -/
theorem hatStep_value (lib : MJoy) (sdl : SDL) (i idx : Nat)
    (s : SDLInputJoystick × List ButtonEvent) :
    ((SDLInputJoystick.hatStep lib sdl i s).1.Axes[idx]?).map (fun a => a.Value)
      = if idx = s.1.NumAxes + i * 2 then
          (s.1.Axes[idx]?).map (fun _ => SDLInputJoystick.hatX (SDLInputJoystick.rawHat sdl s.1 i))
        else if idx = s.1.NumAxes + i * 2 + 1 then
          (s.1.Axes[idx]?).map (fun _ => SDLInputJoystick.hatY (SDLInputJoystick.rawHat sdl s.1 i))
        else (s.1.Axes[idx]?).map (fun a => a.Value) := by
  have hne : s.1.NumAxes + i * 2 ≠ s.1.NumAxes + i * 2 + 1 := by omega
  have key : ∀ l : List SDLInputJoystick.AxisInfo,
      l = modifyAt (modifyAt s.1.Axes (s.1.NumAxes + i * 2 + 1)
            (fun y => { y with Value := SDLInputJoystick.hatY (SDLInputJoystick.rawHat sdl s.1 i) }))
          (s.1.NumAxes + i * 2)
            (fun x => { x with Value := SDLInputJoystick.hatX (SDLInputJoystick.rawHat sdl s.1 i) }) →
      (l[idx]?).map (fun a => a.Value)
        = if idx = s.1.NumAxes + i * 2 then
            (s.1.Axes[idx]?).map
              (fun _ => SDLInputJoystick.hatX (SDLInputJoystick.rawHat sdl s.1 i))
          else if idx = s.1.NumAxes + i * 2 + 1 then
            (s.1.Axes[idx]?).map
              (fun _ => SDLInputJoystick.hatY (SDLInputJoystick.rawHat sdl s.1 i))
          else (s.1.Axes[idx]?).map (fun a => a.Value) := by
    intro l hl
    subst hl
    rw [getElem?_modifyAt, getElem?_modifyAt]
    by_cases h1 : idx = s.1.NumAxes + i * 2
    · have h2 : ¬ idx = s.1.NumAxes + i * 2 + 1 := by omega
      subst h1
      simp only [if_true, hne, if_false, Option.map_map]
      rfl
    · by_cases h2 : idx = s.1.NumAxes + i * 2 + 1
      · subst h2
        simp only [h1, if_true, if_false, Option.map_map]
        rfl
      · simp only [h1, h2, if_false]
  rw [hatStep_axes]
  by_cases h4 : i < 4
  · simp only [h4, if_true]
    cases hx : (modifyAt (modifyAt s.1.Axes (s.1.NumAxes + i * 2 + 1)
            (fun y => { y with Value := SDLInputJoystick.hatY (SDLInputJoystick.rawHat sdl s.1 i) }))
          (s.1.NumAxes + i * 2)
            (fun x => { x with Value := SDLInputJoystick.hatX (SDLInputJoystick.rawHat sdl s.1 i) }))[s.1.NumAxes + i * 2]? with
    | none => exact key _ rfl
    | some x =>
        dsimp only
        rw [value_set_button _ _ _ _ _ hx]
        exact key _ rfl
  · simp only [h4, if_false]
    exact key _ rfl

theorem rawHat_congr (sdl : SDL) (j1 j2 : SDLInputJoystick) (i : Nat)
    (h : j1.Device = j2.Device) :
    SDLInputJoystick.rawHat sdl j1 i = SDLInputJoystick.rawHat sdl j2 i := by
  unfold SDLInputJoystick.rawHat
  rw [h]

/-- Invariant of the hat loop: after `k` iterations the synthetic axes of the
hats `0 .. k-1` hold the values decoded from their hat bytes. -/
theorem hatLoop_values (lib : MJoy) (sdl : SDL) (j0 : SDLInputJoystick)
    (s0 : SDLInputJoystick × List ButtonEvent) (hs0 : SameShape j0 s0) (k : Nat)
    (hk : j0.NumAxes + k * 2 ≤ j0.Axes.length) :
    SameShape j0 (forLoop k (SDLInputJoystick.hatStep lib sdl) s0) ∧
    ∀ h, h < k →
      ((forLoop k (SDLInputJoystick.hatStep lib sdl) s0).1.Axes[j0.NumAxes + h * 2]?).map
          (fun a => a.Value) = some (SDLInputJoystick.hatX (SDLInputJoystick.rawHat sdl j0 h)) ∧
      ((forLoop k (SDLInputJoystick.hatStep lib sdl) s0).1.Axes[j0.NumAxes + h * 2 + 1]?).map
          (fun a => a.Value) = some (SDLInputJoystick.hatY (SDLInputJoystick.rawHat sdl j0 h)) := by
  induction k with
  | zero => exact ⟨hs0, fun h hh => absurd hh (Nat.not_lt_zero h)⟩
  | succ k ih =>
      obtain ⟨hshape, hvals⟩ := ih (by omega)
      rw [forLoop_succ]
      refine ⟨hatStep_shape lib sdl j0 k _ hshape, ?_⟩
      obtain ⟨hn, _, hdev, hlen⟩ := hshape
      intro h hh
      rw [hatStep_value, hatStep_value, hn, rawHat_congr sdl _ j0 k hdev]
      by_cases hhk : h = k
      · subst hhk
        have hx : j0.NumAxes + h * 2 < (forLoop h (SDLInputJoystick.hatStep lib sdl) s0).1.Axes.length := by
          omega
        have hy : j0.NumAxes + h * 2 + 1
            < (forLoop h (SDLInputJoystick.hatStep lib sdl) s0).1.Axes.length := by omega
        have hne : ¬ j0.NumAxes + h * 2 + 1 = j0.NumAxes + h * 2 := by omega
        simp [hx, hy, List.getElem?_eq_getElem]
      · have hlt : h < k := by omega
        have h1 : ¬ j0.NumAxes + h * 2 = j0.NumAxes + k * 2 := by omega
        have h2 : ¬ j0.NumAxes + h * 2 = j0.NumAxes + k * 2 + 1 := by omega
        have h3 : ¬ j0.NumAxes + h * 2 + 1 = j0.NumAxes + k * 2 := by omega
        have h4 : ¬ j0.NumAxes + h * 2 + 1 = j0.NumAxes + k * 2 + 1 := by omega
        simp only [h1, h2, h3, h4, if_false]
        exact hvals h hlt

/-- C9: after one `ProcessInput` pass of a classic joystick whose axis table
covers `GetNumAxes()` entries, for every hat `h` with byte `b` read from the
device, the synthetic X axis (index `NumAxes + 2h`) holds `+1` if bit `0x2`
(left) is set, else `-1` if bit `0x8` (right) is set, else `0`; the synthetic
Y axis (index `NumAxes + 2h + 1`) holds `-1` if bit `0x1` (up) is set, else
`+1` if bit `0x4` (down) is set, else `0`; with `b = 0` both hold `0`. -/
theorem c9_hat_to_axis (lib : MJoy) (sdl : SDL) (j : SDLInputJoystick) (h : Nat)
    (hh : h < j.NumHats) (hwf : j.GetNumAxes ≤ j.Axes.length) :
    (((j.ProcessInput lib sdl).1.Axes[j.NumAxes + 2 * h]?).map (fun a => a.Value)
      = some (if SDLInputJoystick.rawHat sdl j h &&& 0x2 ≠ 0 then 1
          else if SDLInputJoystick.rawHat sdl j h &&& 0x8 ≠ 0 then -1 else 0)) ∧
    (((j.ProcessInput lib sdl).1.Axes[j.NumAxes + 2 * h + 1]?).map (fun a => a.Value)
      = some (if SDLInputJoystick.rawHat sdl j h &&& 0x1 ≠ 0 then -1
          else if SDLInputJoystick.rawHat sdl j h &&& 0x4 ≠ 0 then 1 else 0)) ∧
    (SDLInputJoystick.rawHat sdl j h = 0 →
      ((j.ProcessInput lib sdl).1.Axes[j.NumAxes + 2 * h]?).map (fun a => a.Value) = some 0 ∧
      ((j.ProcessInput lib sdl).1.Axes[j.NumAxes + 2 * h + 1]?).map (fun a => a.Value) = some 0) := by
  have hs1 : SameShape j (forLoop j.NumAxes (SDLInputJoystick.axisStep lib sdl) (j, [])) :=
    forLoop_invariant (fun _ s => SameShape j s) j.NumAxes _ _ ⟨rfl, rfl, rfl, rfl⟩
      (fun i t _ ht => axisStep_shape lib sdl j i t ht)
  have hs2 := xyStep_shape lib j _ hs1
  have hlen : j.NumAxes + j.NumHats * 2 ≤ j.Axes.length := hwf
  obtain ⟨hx, hy⟩ := (hatLoop_values lib sdl j _ hs2 j.NumHats hlen).2 h hh
  have hx2 : ((j.ProcessInput lib sdl).1.Axes[j.NumAxes + 2 * h]?).map (fun a => a.Value)
      = some (SDLInputJoystick.hatX (SDLInputJoystick.rawHat sdl j h)) := by
    rw [Nat.mul_comm 2 h]; exact hx
  have hy2 : ((j.ProcessInput lib sdl).1.Axes[j.NumAxes + 2 * h + 1]?).map (fun a => a.Value)
      = some (SDLInputJoystick.hatY (SDLInputJoystick.rawHat sdl j h)) := by
    rw [Nat.mul_comm 2 h]; exact hy
  refine ⟨hx2, hy2, ?_⟩
  intro hb
  rw [hx2, hy2, hb]
  exact ⟨rfl, rfl⟩

/-- C9 at a concrete input: hat 0 of the joystick at device index 0, whose hat
byte is 2 (left). -/
theorem c9_witness :
    (0 < (SDLInputJoystick.new sdlA 0).NumHats ∧
      (SDLInputJoystick.new sdlA 0).GetNumAxes ≤ (SDLInputJoystick.new sdlA 0).Axes.length) ∧
    ((((SDLInputJoystick.new sdlA 0).ProcessInput (specMJoy (1 / 2) (1 / 2)) sdlA).1.Axes[
        (SDLInputJoystick.new sdlA 0).NumAxes + 2 * 0]?).map (fun a => a.Value)
      = some (if SDLInputJoystick.rawHat sdlA (SDLInputJoystick.new sdlA 0) 0 &&& 0x2 ≠ 0 then 1
          else if SDLInputJoystick.rawHat sdlA (SDLInputJoystick.new sdlA 0) 0 &&& 0x8 ≠ 0 then -1
          else 0)) ∧
    ((((SDLInputJoystick.new sdlA 0).ProcessInput (specMJoy (1 / 2) (1 / 2)) sdlA).1.Axes[
        (SDLInputJoystick.new sdlA 0).NumAxes + 2 * 0 + 1]?).map (fun a => a.Value)
      = some (if SDLInputJoystick.rawHat sdlA (SDLInputJoystick.new sdlA 0) 0 &&& 0x1 ≠ 0 then -1
          else if SDLInputJoystick.rawHat sdlA (SDLInputJoystick.new sdlA 0) 0 &&& 0x4 ≠ 0 then 1
          else 0)) ∧
    (SDLInputJoystick.rawHat sdlA (SDLInputJoystick.new sdlA 0) 0 = 0 →
      (((SDLInputJoystick.new sdlA 0).ProcessInput (specMJoy (1 / 2) (1 / 2)) sdlA).1.Axes[
        (SDLInputJoystick.new sdlA 0).NumAxes + 2 * 0]?).map (fun a => a.Value) = some 0 ∧
      (((SDLInputJoystick.new sdlA 0).ProcessInput (specMJoy (1 / 2) (1 / 2)) sdlA).1.Axes[
        (SDLInputJoystick.new sdlA 0).NumAxes + 2 * 0 + 1]?).map (fun a => a.Value) = some 0) :=
  ⟨⟨by decide, by decide⟩,
    c9_hat_to_axis (specMJoy (1 / 2) (1 / 2)) sdlA (SDLInputJoystick.new sdlA 0) 0
      (by decide) (by decide)⟩

/-! ## Accumulating the game axes -/

/-- C1 at the failing input: a manager holding one classic joystick whose first
axis was sampled at full deflection and which was then disabled with
`SetEnabled(false)`. `I_GetAxes` still reports `-1` on the side axis, whereas
with the device removed from the list it reports `0`. -/
theorem c1_disabled_joystick_still_contributes :
    ((SDLInputJoystickManager.SetEnabledAt { Joysticks := [.joystick joyA] } 0 false).Joysticks.map
        (fun d => d.GetEnabled) = [false]) ∧
    I_GetAxes (specMJoy (1 / 2) (1 / 2)) sdlA true
        (some (SDLInputJoystickManager.SetEnabledAt { Joysticks := [.joystick joyA] } 0 false))
        (fun _ => 0) JOYAXIS_Side = -1 ∧
    I_GetAxes (specMJoy (1 / 2) (1 / 2)) sdlA true (some { Joysticks := [] })
        (fun _ => 0) JOYAXIS_Side = 0 := by
  refine ⟨?_, ?_, ?_⟩ <;> decide!

/-- C4 at the failing input: a classic joystick followed by a gamepad, each
contributing `-1` to the side axis on its own. `I_GetAxes` reports `-1`, not
the sum `-2`, because the gamepad assigns its value over what is there; with
the two devices in the other order it reports `-2`. -/
theorem c4_gamepad_overwrites_earlier_contribution :
    (IConfigurableJoystick.joystick joyA).AddAxes (specMJoy (1 / 2) (1 / 2)) sdlA
        (fun _ => 0) JOYAXIS_Side = -1 ∧
    (IConfigurableJoystick.gamepad padA).AddAxes (specMJoy (1 / 2) (1 / 2)) sdlA
        (fun _ => 0) JOYAXIS_Side = -1 ∧
    I_GetAxes (specMJoy (1 / 2) (1 / 2)) sdlA true
        (some { Joysticks := [.joystick joyA, .gamepad padA] }) (fun _ => 0) JOYAXIS_Side = -1 ∧
    I_GetAxes (specMJoy (1 / 2) (1 / 2)) sdlA true
        (some { Joysticks := [.gamepad padA, .joystick joyA] }) (fun _ => 0) JOYAXIS_Side = -2 := by
  refine ⟨?_, ?_, ?_, ?_⟩ <;> decide!

/-! ## Dead-zone range -/

/-- C7 at the failing input: the gamepad at device index 1 opened (it is valid)
and right after its construction the dead zone stored for the left-stick X
axis, the value polling hands to the dead-zone removal, is `0`, which is
below `MIN_DEADZONE`. -/
theorem c7_gamepad_constructed_deadzone_zero :
    padA.IsValid = true ∧
    padA.storedDeadZone SDL_CONTROLLER_AXIS_LEFTX = 0 ∧
    ¬ (MIN_DEADZONE ≤ padA.storedDeadZone SDL_CONTROLLER_AXIS_LEFTX) := by
  refine ⟨?_, ?_, ?_⟩ <;> decide!

/-! ## Accumulating the game axes: what does hold -/

/-- Neither adapter's `AddAxes` reads the `Enabled` flag. -/
theorem AddAxes_SetEnabled (lib : MJoy) (sdl : SDL) (d : IConfigurableJoystick) (b : Bool)
    (axes : AxisVec) : (d.SetEnabled b).AddAxes lib sdl axes = d.AddAxes lib sdl axes := by
  cases d <;> rfl

/-- An index loop over a whole array is a left fold over its elements. -/
theorem forLoop_eq_foldl {α σ : Type} (l : List α) (f : α → σ → σ) (body : Nat → σ → σ)
    (hbody : ∀ i (hi : i < l.length) (s : σ), body i s = f (l.get ⟨i, hi⟩) s) (s : σ) :
    forLoop l.length body s = l.foldl (fun s d => f d s) s := by
  have h : ∀ k, k ≤ l.length → forLoop k body s = (l.take k).foldl (fun s d => f d s) s := by
    intro k
    induction k with
    | zero => intro _; simp [forLoop]
    | succ k ih =>
        intro hk
        have hlt : k < l.length := hk
        rw [forLoop_succ, ih (Nat.le_of_lt hlt), List.take_succ, List.foldl_append,
          List.getElem?_eq_getElem hlt, hbody k hlt]
        rfl
  rw [h l.length (Nat.le_refl _), List.take_length]

theorem manager_AddAxes_eq_foldl (lib : MJoy) (sdl : SDL) (m : SDLInputJoystickManager)
    (axes : AxisVec) :
    m.AddAxes lib sdl axes = m.Joysticks.foldl (fun ax d => d.AddAxes lib sdl ax) axes := by
  unfold SDLInputJoystickManager.AddAxes
  apply forLoop_eq_foldl m.Joysticks (fun d ax => d.AddAxes lib sdl ax)
  intro i hi ax
  simp [List.getElem?_eq_getElem hi]

/-- The manager's accumulation does not depend on any device's `Enabled` flag:
enabling or disabling the device in any slot leaves the result of `I_GetAxes`
unchanged. -/
theorem I_GetAxes_ignores_enabled (lib : MJoy) (sdl : SDL) (m : SDLInputJoystickManager)
    (i : Nat) (b : Bool) (axes : AxisVec) :
    I_GetAxes lib sdl true (some (m.SetEnabledAt i b)) axes
      = I_GetAxes lib sdl true (some m) axes := by
  have hfold : ∀ (l : List IConfigurableJoystick) (i : Nat) (ax : AxisVec),
      (modifyAt l i (fun d => d.SetEnabled b)).foldl (fun ax d => d.AddAxes lib sdl ax) ax
        = l.foldl (fun ax d => d.AddAxes lib sdl ax) ax := by
    intro l
    induction l with
    | nil => intro i ax; simp [modifyAt]
    | cons d ds ih =>
        intro i ax
        cases i with
        | zero => simp [modifyAt, AddAxes_SetEnabled]
        | succ i =>
            have := ih i (d.AddAxes lib sdl ax)
            unfold modifyAt at this ⊢
            cases hi : ds[i]? with
            | none => simp [hi]
            | some e => simpa [hi] using this
  simp only [I_GetAxes, manager_AddAxes_eq_foldl, SDLInputJoystickManager.SetEnabledAt]
  exact hfold m.Joysticks i _

/-- A classic joystick's `AddAxes` adds its own contribution to whatever the
vector holds. -/
theorem joystick_AddAxes_additive (j : SDLInputJoystick) (axes : AxisVec) (g : EJoyAxis) :
    j.AddAxes axes g = axes g + j.AddAxes (fun _ => 0) g := by
  unfold SDLInputJoystick.AddAxes
  generalize j.GetNumAxes = n
  induction n generalizing g with
  | zero => simp [forLoop]
  | succ k ih =>
      rw [forLoop_succ, forLoop_succ]
      cases ha : j.Axes[k]? with
      | none => simpa [ha] using ih g
      | some a =>
          by_cases hnone : a.GameAxis = JOYAXIS_None
          · simpa [ha, hnone] using ih g
          · simp only [ha, ne_eq, hnone, not_false_eq_true, if_true, AxisVec.assign]
            by_cases hg : g = a.GameAxis
            · simp only [hg, if_true]
              rw [ih a.GameAxis]
              ring
            · simp only [hg, if_false]
              exact ih g

/-- When every device is a classic joystick, `I_GetAxes` returns on every game
axis the sum of the devices' own contributions. -/
theorem I_GetAxes_sum_of_joysticks (lib : MJoy) (sdl : SDL) (js : List SDLInputJoystick)
    (axes : AxisVec) (g : EJoyAxis) :
    I_GetAxes lib sdl true (some { Joysticks := js.map IConfigurableJoystick.joystick }) axes g
      = (js.map (fun j => j.AddAxes (fun _ => 0) g)).sum := by
  have hfold : ∀ (l : List SDLInputJoystick) (ax : AxisVec),
      (l.map IConfigurableJoystick.joystick).foldl (fun ax d => d.AddAxes lib sdl ax) ax g
        = ax g + (l.map (fun j => j.AddAxes (fun _ => 0) g)).sum := by
    intro l
    induction l with
    | nil => intro ax; simp
    | cons j l ih =>
        intro ax
        simp only [List.map_cons, List.foldl_cons, List.sum_cons]
        rw [ih, IConfigurableJoystick.AddAxes, joystick_AddAxes_additive j ax g]
        ring
  simp only [I_GetAxes, manager_AddAxes_eq_foldl]
  rw [hfold]
  simp

/-- A gamepad's `AddAxes` replaces what the vector holds on the five game axes
it feeds: its result there does not depend on the incoming vector. -/
theorem gamepad_AddAxes_overwrites (lib : MJoy) (sdl : SDL) (p : SDLInputGamepad)
    (axes : AxisVec) (g : EJoyAxis) (hg : g ≠ JOYAXIS_None) :
    p.AddAxes lib sdl axes g = p.AddAxes lib sdl (fun _ => 0) g := by
  cases g <;> first | exact absurd rfl hg | rfl

/-! ## Dead-zone range: what does hold -/

theorem default_deadzone_mem : MIN_DEADZONE ≤ DEFAULT_DEADZONE ∧ DEFAULT_DEADZONE ≤ 1 := by
  constructor <;> norm_num [MIN_DEADZONE, DEFAULT_DEADZONE]

theorem mem_set_cases {α : Type} (l : List α) (i : Nat) (x y : α) (h : y ∈ l.set i x) :
    y = x ∨ y ∈ l := by
  rcases List.mem_or_eq_of_mem_set h with h1 | h1
  · exact Or.inr h1
  · exact Or.inl h1

/-- Every configuration call on a classic joystick keeps all stored dead zones
inside `[MIN_DEADZONE, 1]`. -/
theorem joystick_call_deadzone (j j2 : SDLInputJoystick) (c : ConfigCall)
    (hc : j.call c = some j2)
    (hj : ∀ a ∈ j.Axes, MIN_DEADZONE ≤ a.DeadZone ∧ a.DeadZone ≤ 1) :
    ∀ a ∈ j2.Axes, MIN_DEADZONE ≤ a.DeadZone ∧ a.DeadZone ≤ 1 := by
  cases c with
  | SetAxisDeadZone axis zone =>
      simp only [SDLInputJoystick.call, SDLInputJoystick.SetAxisDeadZone] at hc
      cases hx : j.Axes[axis]? with
      | none => simp [hx] at hc
      | some x =>
          simp only [hx, Option.some.injEq] at hc
          subst hc
          intro a ha
          rcases mem_set_cases _ _ _ _ ha with h | h
          · subst h; exact clamp_mem zone
          · exact hj a h
  | SetAxisScale axis scale =>
      simp only [SDLInputJoystick.call, SDLInputJoystick.SetAxisScale] at hc
      cases hx : j.Axes[axis]? with
      | none => simp [hx] at hc
      | some x =>
          simp only [hx, Option.some.injEq] at hc
          subst hc
          intro a ha
          rcases mem_set_cases _ _ _ _ ha with h | h
          · subst h; exact hj x (List.getElem?_mem hx)
          · exact hj a h
  | SetAxisMap axis gameaxis =>
      simp only [SDLInputJoystick.call, SDLInputJoystick.SetAxisMap] at hc
      cases hx : j.Axes[axis]? with
      | none => simp [hx] at hc
      | some x =>
          simp only [hx, Option.some.injEq] at hc
          subst hc
          intro a ha
          rcases mem_set_cases _ _ _ _ ha with h | h
          · subst h; exact hj x (List.getElem?_mem hx)
          · exact hj a h
  | SetSensitivity scale =>
      simp only [SDLInputJoystick.call, Option.some.injEq] at hc
      subst hc; exact hj
  | SetEnabled enabled =>
      simp only [SDLInputJoystick.call, Option.some.injEq] at hc
      subst hc; exact hj
  | SetDefaultConfig =>
      simp only [SDLInputJoystick.call, Option.some.injEq] at hc
      subst hc
      rw [SetDefaultConfig_eq]
      intro a ha
      simp only [List.mem_append, List.mem_map] at ha
      rcases ha with h | ⟨i, _, h⟩
      · exact hj a h
      · subst h; exact default_deadzone_mem

/-- Dead-zone range invariant of the classic joystick: in the state right after
construction and in every state reached from it by configuration calls, every
stored dead zone lies in `[MIN_DEADZONE, 1]`. -/
theorem joystick_deadzone_invariant (sdl : SDL) (DeviceIndex : Nat) (cs : List ConfigCall)
    (j : SDLInputJoystick) (hj : (SDLInputJoystick.new sdl DeviceIndex).calls cs = some j) :
    ∀ a ∈ j.Axes, MIN_DEADZONE ≤ a.DeadZone ∧ a.DeadZone ≤ 1 := by
  have hinit : ∀ a ∈ (SDLInputJoystick.new sdl DeviceIndex).Axes,
      MIN_DEADZONE ≤ a.DeadZone ∧ a.DeadZone ≤ 1 := by
    cases hopen : sdl.SDL_JoystickOpen DeviceIndex with
    | none => simp [SDLInputJoystick.new, hopen]
    | some dev =>
        rw [new_eq_of_open sdl DeviceIndex dev hopen]
        intro a ha
        simp only [List.mem_map] at ha
        obtain ⟨i, _, h⟩ := ha
        subst h; exact default_deadzone_mem
  have hrun : ∀ (cs : List ConfigCall) (j0 j : SDLInputJoystick),
      (∀ a ∈ j0.Axes, MIN_DEADZONE ≤ a.DeadZone ∧ a.DeadZone ≤ 1) → j0.calls cs = some j →
      ∀ a ∈ j.Axes, MIN_DEADZONE ≤ a.DeadZone ∧ a.DeadZone ≤ 1 := by
    intro cs
    induction cs with
    | nil =>
        intro j0 j h0 hrun
        simp only [SDLInputJoystick.calls, Option.some.injEq] at hrun
        subst hrun; exact h0
    | cons c cs ih =>
        intro j0 j h0 hrun
        simp only [SDLInputJoystick.calls] at hrun
        cases hc : j0.call c with
        | none => simp [hc] at hrun
        | some j1 =>
            simp only [hc] at hrun
            exact ih j1 j (joystick_call_deadzone j0 j1 c hc h0) hrun
  exact hrun cs _ j hinit hj

/-- The gamepad's constructor leaves every stored dead zone at `0`, below
`MIN_DEADZONE`, whatever device it opens. -/
theorem gamepad_new_deadzone (sdl : SDL) (DeviceIndex : Nat) (uninit : ℚ) :
    ∀ a ∈ (SDLInputGamepad.new sdl DeviceIndex uninit).AxisSettings,
      a.DeadZone = 0 ∧ a.DeadZone < MIN_DEADZONE := by
  intro a ha
  simp only [SDLInputGamepad.new, List.mem_replicate] at ha
  rw [ha.2]
  exact ⟨rfl, by norm_num [MIN_DEADZONE]⟩

/-- The loop of the gamepad's `SetDefaultConfig` after `k` axes. -/
theorem gamepad_SetDefaultConfig_loop (g : SDLInputGamepad) (k : Nat) :
    (forLoop k (fun axis (s : SDLInputGamepad) =>
        { s with
          AxisSettings :=
            modifyAt s.AxisSettings axis
              (fun _ => ({ DeadZone := DEFAULT_DEADZONE, Multiplier := 1 } :
                SDLInputGamepad.AxisInfo)) }) g).Multiplier
      = g.Multiplier ∧
    ∀ i, (forLoop k (fun axis (s : SDLInputGamepad) =>
        { s with
          AxisSettings :=
            modifyAt s.AxisSettings axis
              (fun _ => ({ DeadZone := DEFAULT_DEADZONE, Multiplier := 1 } :
                SDLInputGamepad.AxisInfo)) }) g).AxisSettings[i]?
      = if i < k then
          (g.AxisSettings[i]?).map (fun _ => { DeadZone := DEFAULT_DEADZONE, Multiplier := 1 })
        else g.AxisSettings[i]? := by
  induction k with
  | zero => simp [forLoop]
  | succ k ih =>
      rw [forLoop_succ]
      refine ⟨ih.1, ?_⟩
      intro i
      simp only [getElem?_modifyAt, ih.2]
      by_cases hik : i = k
      · subst hik; simp
      · by_cases hlt : i < k
        · simp [hik, hlt, Nat.lt_succ_of_lt hlt]
        · have : ¬ i < k + 1 := by omega
          simp [hik, hlt, this]

/-- After the gamepad's `SetDefaultConfig` every entry of the settings array is
either the default entry or an entry that was there before (the latter only
beyond the six axes, which a real array does not have). -/
theorem gamepad_SetDefaultConfig_mem (g : SDLInputGamepad) (a : SDLInputGamepad.AxisInfo)
    (ha : a ∈ g.SetDefaultConfig.AxisSettings) :
    a = { DeadZone := DEFAULT_DEADZONE, Multiplier := 1 } ∨
      (a ∈ g.AxisSettings ∧ SDL_CONTROLLER_AXIS_MAX < g.AxisSettings.length) := by
  obtain ⟨i, hi⟩ := List.mem_iff_getElem?.mp ha
  have h := (gamepad_SetDefaultConfig_loop { g with Multiplier := 1 } SDL_CONTROLLER_AXIS_MAX).2 i
  unfold SDLInputGamepad.SetDefaultConfig at hi
  rw [h] at hi
  by_cases hlt : i < SDL_CONTROLLER_AXIS_MAX
  · simp only [hlt, if_true] at hi
    cases hx : g.AxisSettings[i]? with
    | none => simp [hx] at hi
    | some x => simp [hx] at hi; exact Or.inl hi.symm
  · simp only [hlt, if_false] at hi
    refine Or.inr ⟨List.getElem?_mem hi, ?_⟩
    have hil : i < g.AxisSettings.length := by
      by_contra hge
      rw [List.getElem?_eq_none (Nat.le_of_not_lt hge)] at hi
      cases hi
    omega

/-- Every configuration call on a gamepad keeps all stored dead zones inside
`[MIN_DEADZONE, 1]` once they are there. -/
theorem gamepad_call_deadzone (g g2 : SDLInputGamepad) (c : ConfigCall)
    (hc : g.call c = some g2)
    (hg : ∀ a ∈ g.AxisSettings, MIN_DEADZONE ≤ a.DeadZone ∧ a.DeadZone ≤ 1) :
    ∀ a ∈ g2.AxisSettings, MIN_DEADZONE ≤ a.DeadZone ∧ a.DeadZone ≤ 1 := by
  cases c with
  | SetAxisDeadZone axis zone =>
      simp only [SDLInputGamepad.call, SDLInputGamepad.SetAxisDeadZone] at hc
      cases hx : g.AxisSettings[axis]? with
      | none => simp [hx] at hc
      | some x =>
          simp only [hx, Option.some.injEq] at hc
          subst hc
          intro a ha
          rcases mem_set_cases _ _ _ _ ha with h | h
          · subst h; exact clamp_mem zone
          · exact hg a h
  | SetAxisScale axis scale =>
      simp only [SDLInputGamepad.call, SDLInputGamepad.SetAxisScale] at hc
      cases hx : g.AxisSettings[axis]? with
      | none => simp [hx] at hc
      | some x =>
          simp only [hx, Option.some.injEq] at hc
          subst hc
          intro a ha
          rcases mem_set_cases _ _ _ _ ha with h | h
          · subst h; exact hg x (List.getElem?_mem hx)
          · exact hg a h
  | SetAxisMap axis gameaxis =>
      simp only [SDLInputGamepad.call, Option.some.injEq] at hc
      subst hc; exact hg
  | SetSensitivity scale =>
      simp only [SDLInputGamepad.call, Option.some.injEq] at hc
      subst hc; exact hg
  | SetEnabled enabled =>
      simp only [SDLInputGamepad.call, Option.some.injEq] at hc
      subst hc; exact hg
  | SetDefaultConfig =>
      simp only [SDLInputGamepad.call, Option.some.injEq] at hc
      subst hc
      intro a ha
      rcases gamepad_SetDefaultConfig_mem g a ha with h | h
      · subst h; exact default_deadzone_mem
      · exact hg a h.1

/-- Dead-zone range of the gamepad from `SetDefaultConfig` on: once
`SetDefaultConfig` has run on a constructed gamepad, every stored dead zone lies
in `[MIN_DEADZONE, 1]` in that state and in every state reached from it by
configuration calls. -/
theorem gamepad_deadzone_after_default (sdl : SDL) (DeviceIndex : Nat) (uninit : ℚ)
    (cs : List ConfigCall) (g : SDLInputGamepad)
    (hg : (SDLInputGamepad.new sdl DeviceIndex uninit).SetDefaultConfig.calls cs = some g) :
    ∀ a ∈ g.AxisSettings, MIN_DEADZONE ≤ a.DeadZone ∧ a.DeadZone ≤ 1 := by
  have hinit : ∀ a ∈ (SDLInputGamepad.new sdl DeviceIndex uninit).SetDefaultConfig.AxisSettings,
      MIN_DEADZONE ≤ a.DeadZone ∧ a.DeadZone ≤ 1 := by
    intro a ha
    rcases gamepad_SetDefaultConfig_mem _ a ha with h | h
    · subst h; exact default_deadzone_mem
    · exact absurd h.2 (by simp [SDLInputGamepad.new])
  have hrun : ∀ (cs : List ConfigCall) (g0 g : SDLInputGamepad),
      (∀ a ∈ g0.AxisSettings, MIN_DEADZONE ≤ a.DeadZone ∧ a.DeadZone ≤ 1) →
      g0.calls cs = some g →
      ∀ a ∈ g.AxisSettings, MIN_DEADZONE ≤ a.DeadZone ∧ a.DeadZone ≤ 1 := by
    intro cs
    induction cs with
    | nil =>
        intro g0 g h0 hrun
        simp only [SDLInputGamepad.calls, Option.some.injEq] at hrun
        subst hrun; exact h0
    | cons c cs ih =>
        intro g0 g h0 hrun
        simp only [SDLInputGamepad.calls] at hrun
        cases hc : g0.call c with
        | none => simp [hc] at hrun
        | some g1 =>
            simp only [hc] at hrun
            exact ih g1 g (gamepad_call_deadzone g0 g1 c hc h0) hrun
  exact hrun cs _ g hinit hg

/-! ## Gamepad contribution to the game axes -/

theorem gamepad_mapped_axis (g : SDLInputGamepad) (a : Nat)
    (ha : g.GetAxisMap a ≠ JOYAXIS_None) :
    a = SDL_CONTROLLER_AXIS_LEFTX ∨ a = SDL_CONTROLLER_AXIS_LEFTY ∨
      a = SDL_CONTROLLER_AXIS_RIGHTX ∨ a = SDL_CONTROLLER_AXIS_RIGHTY ∨
      a = SDL_CONTROLLER_AXIS_TRIGGERLEFT := by
  unfold SDLInputGamepad.GetAxisMap at ha
  by_contra hcon
  simp only [not_or] at hcon
  obtain ⟨h0, h1, h2, h3, h4⟩ := hcon
  simp [h0, h1, h2, h3, h4] at ha

/-- C11: for every raw device state and every incoming vector (the all-zero one
included), after the gamepad's `AddAxes` the entry of the game axis that a
physical axis `a` maps to (left X, left Y, right X, right Y, left trigger) is
minus the dead-zone-removed value of `raw(a)/32767` computed with the dead zone
stored for `a`; an entry that no physical axis maps to keeps its previous
value. -/
theorem c11_gamepad_contribution_negated (lib : MJoy) (sdl : SDL) (g : SDLInputGamepad)
    (axes : AxisVec) (a : Nat) (ha : g.GetAxisMap a ≠ JOYAXIS_None) :
    g.AddAxes lib sdl (fun _ => 0) (g.GetAxisMap a)
      = -(lib.Joy_RemoveDeadZone ((SDLInputGamepad.rawAxis sdl g a : ℚ) / 32767)
            (g.storedDeadZone a)).1 ∧
    g.AddAxes lib sdl axes (g.GetAxisMap a)
      = -(lib.Joy_RemoveDeadZone ((SDLInputGamepad.rawAxis sdl g a : ℚ) / 32767)
            (g.storedDeadZone a)).1 ∧
    ∀ k, (∀ b, g.GetAxisMap b ≠ JOYAXIS_None → g.GetAxisMap b ≠ k) →
      g.AddAxes lib sdl axes k = axes k := by
  refine ⟨?_, ?_, ?_⟩
  · rcases gamepad_mapped_axis g a ha with h | h | h | h | h <;> subst h <;> rfl
  · rcases gamepad_mapped_axis g a ha with h | h | h | h | h <;> subst h <;> rfl
  · intro k hk
    have h0 := hk SDL_CONTROLLER_AXIS_LEFTX (fun h => EJoyAxis.noConfusion h)
    have h1 := hk SDL_CONTROLLER_AXIS_LEFTY (fun h => EJoyAxis.noConfusion h)
    have h2 := hk SDL_CONTROLLER_AXIS_RIGHTX (fun h => EJoyAxis.noConfusion h)
    have h3 := hk SDL_CONTROLLER_AXIS_RIGHTY (fun h => EJoyAxis.noConfusion h)
    have h4 := hk SDL_CONTROLLER_AXIS_TRIGGERLEFT (fun h => EJoyAxis.noConfusion h)
    cases k
    · rfl
    · exact absurd rfl h2
    · exact absurd rfl h3
    · exact absurd rfl h1
    · exact absurd rfl h0
    · exact absurd rfl h4

/-- C11 at a concrete input: the left-stick X axis of the gamepad at device
index 1. -/
theorem c11_witness :
    padA.GetAxisMap 0 ≠ JOYAXIS_None ∧
    (padA.AddAxes (specMJoy (1 / 2) (1 / 2)) sdlA (fun _ => 0) (padA.GetAxisMap 0)
      = -((specMJoy (1 / 2) (1 / 2)).Joy_RemoveDeadZone
            ((SDLInputGamepad.rawAxis sdlA padA 0 : ℚ) / 32767) (padA.storedDeadZone 0)).1 ∧
    padA.AddAxes (specMJoy (1 / 2) (1 / 2)) sdlA (fun _ => 0) (padA.GetAxisMap 0)
      = -((specMJoy (1 / 2) (1 / 2)).Joy_RemoveDeadZone
            ((SDLInputGamepad.rawAxis sdlA padA 0 : ℚ) / 32767) (padA.storedDeadZone 0)).1 ∧
    ∀ k, (∀ b, padA.GetAxisMap b ≠ JOYAXIS_None → padA.GetAxisMap b ≠ k) →
      padA.AddAxes (specMJoy (1 / 2) (1 / 2)) sdlA (fun _ => 0) k = (fun _ => (0 : ℚ)) k) :=
  ⟨by decide, c11_gamepad_contribution_negated (specMJoy (1 / 2) (1 / 2)) sdlA padA
    (fun _ => 0) 0 (by decide)⟩

/-! ## Enumeration and teardown -/

theorem joystick_new_Device (sdl : SDL) (i : Nat) :
    (SDLInputJoystick.new sdl i).Device = sdl.SDL_JoystickOpen i := by
  cases hopen : sdl.SDL_JoystickOpen i with
  | none => simp [SDLInputJoystick.new, hopen]
  | some dev => rw [new_eq_of_open sdl i dev hopen]

/-- The adapter built for an index is valid exactly when its open succeeded. -/
theorem newDevice_IsValid (sdl : SDL) (uninit : Nat → ℚ) (i : Nat) :
    (SDLInputJoystickManager.newDevice sdl uninit i).IsValid
      = if sdl.SDL_IsGameController i then (sdl.SDL_GameControllerOpen i).isSome
        else (sdl.SDL_JoystickOpen i).isSome := by
  unfold SDLInputJoystickManager.newDevice
  by_cases hg : sdl.SDL_IsGameController i = true
  · simp [hg, IConfigurableJoystick.IsValid, SDLInputGamepad.IsValid, SDLInputGamepad.new]
  · simp [hg, IConfigurableJoystick.IsValid, SDLInputJoystick.IsValid, joystick_new_Device]

/-- The array `Joysticks` after `k` iterations of the constructor's loop. -/
theorem enum_loop_Joysticks (sdl : SDL) (uninit : Nat → ℚ) (k : Nat) :
    (forLoop k (SDLInputJoystickManager.enumStep sdl uninit)
        { Joysticks := [], trace := [], live := [] }).Joysticks
      = (List.range k).filterMap (fun i =>
          if (SDLInputJoystickManager.newDevice sdl uninit i).IsValid then
            some (SDLInputJoystickManager.newDevice sdl uninit i)
          else none) := by
  induction k with
  | zero => simp [forLoop]
  | succ k ih =>
      rw [forLoop_succ, List.range_succ, List.filterMap_append, ← ih]
      unfold SDLInputJoystickManager.enumStep
      by_cases hv : (SDLInputJoystickManager.newDevice sdl uninit k).IsValid = true
      · simp [hv]
      · simp [hv]

/-- C12: after the manager's constructor has run over the `n` attached devices,
`Joysticks` holds, in index order, the adapter built for each index whose
adapter is valid (a gamepad adapter when the index is a game controller,
otherwise a classic joystick adapter) and nothing for the other indices; an
adapter is valid exactly when its open succeeded, and every adapter in the list
is valid. -/
theorem c12_enumeration_registers_only_opened (sdl : SDL) (uninit : Nat → ℚ) :
    (SDLInputJoystickManager.new sdl uninit).Joysticks
      = (List.range sdl.SDL_NumJoysticks).filterMap (fun i =>
          if (SDLInputJoystickManager.newDevice sdl uninit i).IsValid then
            some (SDLInputJoystickManager.newDevice sdl uninit i)
          else none) ∧
    (∀ i, SDLInputJoystickManager.newDevice sdl uninit i
      = if sdl.SDL_IsGameController i then
          IConfigurableJoystick.gamepad (SDLInputGamepad.new sdl i (uninit i))
        else IConfigurableJoystick.joystick (SDLInputJoystick.new sdl i)) ∧
    (∀ i, (SDLInputJoystickManager.newDevice sdl uninit i).IsValid
      = if sdl.SDL_IsGameController i then (sdl.SDL_GameControllerOpen i).isSome
        else (sdl.SDL_JoystickOpen i).isSome) ∧
    ∀ d ∈ (SDLInputJoystickManager.new sdl uninit).Joysticks, d.IsValid = true := by
  have hJ := enum_loop_Joysticks sdl uninit sdl.SDL_NumJoysticks
  refine ⟨hJ, fun i => rfl, newDevice_IsValid sdl uninit, ?_⟩
  intro d hd
  unfold SDLInputJoystickManager.new at hd
  rw [hJ, List.mem_filterMap] at hd
  obtain ⟨i, _, hi⟩ := hd
  by_cases hv : (SDLInputJoystickManager.newDevice sdl uninit i).IsValid = true
  · simp only [hv, if_true, Option.some.injEq] at hi
    rw [← hi]; exact hv
  · simp [hv] at hi

/-- Destroying a classic joystick whose device opened saves its configuration
and then closes the handle. -/
theorem joystick_destroy_saves_then_closes (j : SDLInputJoystick) (dev : Nat)
    (hdev : j.Device = some dev) :
    (IConfigurableJoystick.joystick j).destroy
      = [Effect.M_SaveJoystickConfig (IConfigurableJoystick.joystick j),
          Effect.SDL_JoystickClose (some dev)] := by
  simp [IConfigurableJoystick.destroy, SDLInputJoystick.destroy, hdev]

/-- Destroying a gamepad closes the handle and does nothing else, whatever its
state. -/
theorem gamepad_destroy_only_closes (g : SDLInputGamepad) :
    (IConfigurableJoystick.gamepad g).destroy = [Effect.SDL_GameControllerClose g._Gamepad] :=
  rfl

/-- C13 at the failing input: the gamepad at device index 1 opened (it is
valid); destroying it performs the single effect of closing the handle, with
no save-configuration effect before it. -/
theorem c13_gamepad_destroy_does_not_save :
    padA.IsValid = true ∧
    (IConfigurableJoystick.gamepad padA).destroy = [Effect.SDL_GameControllerClose (some 2)] ∧
    Effect.M_SaveJoystickConfig (IConfigurableJoystick.gamepad padA)
      ∉ (IConfigurableJoystick.gamepad padA).destroy := by
  refine ⟨?_, ?_, ?_⟩ <;> decide!

/-- C14 at the failing input: two attached devices that both open, index 0 a
classic joystick and index 1 a game controller. The constructor opens index 0
twice and index 1 twice (once as a joystick, once as a game controller), four
opens for two devices, and of the four adapters it allocates two are in
`Joysticks` while two are neither kept nor destroyed. -/
theorem c14_enumeration_opens_twice :
    (SDLInputJoystickManager.new sdlA (fun _ => 1)).trace
      = [Effect.SDL_JoystickOpen 0, Effect.SDL_JoystickOpen 0,
          Effect.SDL_JoystickOpen 1, Effect.SDL_GameControllerOpen 1] ∧
    (SDLInputJoystickManager.new sdlA (fun _ => 1)).Joysticks.length = 2 ∧
    (SDLInputJoystickManager.new sdlA (fun _ => 1)).live.length = 4 ∧
    (SDLInputJoystickManager.new sdlA (fun _ => 1)).live
      = [IConfigurableJoystick.joystick (SDLInputJoystick.new sdlA 0),
          IConfigurableJoystick.joystick (SDLInputJoystick.new sdlA 0),
          IConfigurableJoystick.joystick (SDLInputJoystick.new sdlA 1),
          IConfigurableJoystick.gamepad (SDLInputGamepad.new sdlA 1 1)] := by
  refine ⟨?_, ?_, ?_, ?_⟩ <;> decide!

theorem destroy_no_open (d : IConfigurableJoystick) :
    d.destroy.filter Effect.isOpen = [] := by
  cases d with
  | joystick j =>
      by_cases h : j.Device = none
      · simp [IConfigurableJoystick.destroy, SDLInputJoystick.destroy, h, Effect.isOpen]
      · simp [IConfigurableJoystick.destroy, SDLInputJoystick.destroy, h, Effect.isOpen]
  | gamepad g => simp [IConfigurableJoystick.destroy, SDLInputGamepad.destroy, Effect.isOpen]

theorem enumStep_counts (sdl : SDL) (uninit : Nat → ℚ) (i : Nat) (s : Enumeration) :
    ((SDLInputJoystickManager.enumStep sdl uninit i s).trace.filter Effect.isOpen).length
      = (s.trace.filter Effect.isOpen).length + 2 ∧
    (SDLInputJoystickManager.enumStep sdl uninit i s).live.length
        + s.Joysticks.length
      = (SDLInputJoystickManager.enumStep sdl uninit i s).Joysticks.length
        + s.live.length + 1 := by
  unfold SDLInputJoystickManager.enumStep
  by_cases hv : (SDLInputJoystickManager.newDevice sdl uninit i).IsValid = true
  · by_cases hg : sdl.SDL_IsGameController i = true
    · simp [hv, hg, List.filter_append, SDLInputJoystick.newEffects,
        SDLInputGamepad.newEffects, Effect.isOpen]
      omega
    · simp [hv, hg, List.filter_append, SDLInputJoystick.newEffects,
        SDLInputGamepad.newEffects, Effect.isOpen]
      omega
  · by_cases hg : sdl.SDL_IsGameController i = true
    · simp [hv, hg, List.filter_append, SDLInputJoystick.newEffects,
        SDLInputGamepad.newEffects, Effect.isOpen, destroy_no_open]
      omega
    · simp [hv, hg, List.filter_append, SDLInputJoystick.newEffects,
        SDLInputGamepad.newEffects, Effect.isOpen, destroy_no_open]
      omega

/-- For every set of attached devices the constructor performs two opens per
device index and leaves one adapter per index on the heap beyond those held in
`Joysticks`. -/
theorem enumeration_counts (sdl : SDL) (uninit : Nat → ℚ) :
    ((SDLInputJoystickManager.new sdl uninit).trace.filter Effect.isOpen).length
      = 2 * sdl.SDL_NumJoysticks ∧
    (SDLInputJoystickManager.new sdl uninit).live.length
      = (SDLInputJoystickManager.new sdl uninit).Joysticks.length + sdl.SDL_NumJoysticks := by
  unfold SDLInputJoystickManager.new
  generalize sdl.SDL_NumJoysticks = n
  induction n with
  | zero => simp [forLoop]
  | succ k ih =>
      rw [forLoop_succ]
      obtain ⟨ih1, ih2⟩ := ih
      obtain ⟨h1, h2⟩ := enumStep_counts sdl uninit k
        (forLoop k (SDLInputJoystickManager.enumStep sdl uninit)
          { Joysticks := [], trace := [], live := [] })
      constructor
      · rw [h1, ih1]; ring
      · omega

/-! ## Device identifier -/

theorem digitChar_ne_minus (d : Nat) (hd : d < 10) : Nat.digitChar d ≠ '-' := by
  interval_cases d <;> decide

theorem digitChar_inj (a b : Nat) (ha : a < 10) (hb : b < 10)
    (h : Nat.digitChar a = Nat.digitChar b) : a = b := by
  interval_cases a <;> interval_cases b <;> first | rfl | (exact absurd h (by decide))

theorem map_digitChar_inj (l1 l2 : List Nat) (h1 : ∀ d ∈ l1, d < 10) (h2 : ∀ d ∈ l2, d < 10)
    (h : l1.map Nat.digitChar = l2.map Nat.digitChar) : l1 = l2 := by
  induction l1 generalizing l2 with
  | nil =>
      cases l2 with
      | nil => rfl
      | cons b bs => simp at h
  | cons a as ih =>
      cases l2 with
      | nil => simp at h
      | cons b bs =>
          simp only [List.map_cons, List.cons.injEq] at h
          have hab := digitChar_inj a b (h1 a (List.mem_cons_self _ _))
            (h2 b (List.mem_cons_self _ _)) h.1
          have := ih bs (fun d hd => h1 d (List.mem_cons_of_mem _ hd))
            (fun d hd => h2 d (List.mem_cons_of_mem _ hd)) h.2
          rw [hab, this]

theorem decimalDigits_ne_minus (n : Nat) : ∀ c ∈ decimalDigits n, c ≠ '-' := by
  intro c hc
  unfold decimalDigits at hc
  by_cases hn : n = 0
  · simp [hn] at hc
    rw [hc]; decide
  · simp only [hn, if_false, List.mem_map, List.mem_reverse] at hc
    obtain ⟨d, hd, rfl⟩ := hc
    exact digitChar_ne_minus d (Nat.digits_lt_base (by norm_num) hd)

theorem decimalDigits_ne_nil (n : Nat) : decimalDigits n ≠ [] := by
  unfold decimalDigits
  by_cases hn : n = 0
  · simp [hn]
  · simp [hn, Nat.digits_eq_nil_iff_eq_zero]

theorem decimalDigits_inj (n m : Nat) (h : decimalDigits n = decimalDigits m) : n = m := by
  have key : ∀ k, k ≠ 0 → (Nat.digits 10 k).reverse.map Nat.digitChar ≠ ['0'] := by
    intro k hk hcon
    have hlen : (Nat.digits 10 k).length = 1 := by
      have := congrArg List.length hcon
      simpa using this
    obtain ⟨d, hd⟩ := List.length_eq_one.mp hlen
    have hlast := Nat.getLast_digit_ne_zero 10 hk
    simp only [hd, List.getLast_singleton] at hlast
    rw [hd] at hcon
    simp only [List.reverse_singleton, List.map_cons, List.map_nil, List.cons.injEq,
      and_true] at hcon
    have hd10 : d < 10 := Nat.digits_lt_base (by norm_num) (by rw [hd]; simp)
    exact hlast (digitChar_inj d 0 hd10 (by norm_num) hcon)
  unfold decimalDigits at h
  by_cases hn : n = 0
  · by_cases hm : m = 0
    · rw [hn, hm]
    · simp only [hn, hm, if_true, if_false] at h
      exact absurd h.symm (key m hm)
  · by_cases hm : m = 0
    · simp only [hn, hm, if_true, if_false] at h
      exact absurd h (key n hn)
    · simp only [hn, hm, if_false] at h
      have h2 := map_digitChar_inj _ _
        (fun d hd => Nat.digits_lt_base (by norm_num) (List.mem_reverse.mp hd))
        (fun d hd => Nat.digits_lt_base (by norm_num) (List.mem_reverse.mp hd)) h
      exact Nat.digits_inj_iff.mp (List.reverse_injective h2)

theorem formatInt_inj (i j : Int) (h : formatInt i = formatInt j) : i = j := by
  unfold formatInt at h
  by_cases hi : i < 0
  · by_cases hj : j < 0
    · simp only [hi, hj, if_true, List.cons.injEq, true_and] at h
      have := decimalDigits_inj _ _ h
      omega
    · simp only [hi, hj, if_true, if_false] at h
      have hmem : '-' ∈ decimalDigits j.natAbs := by rw [← h]; exact List.mem_cons_self _ _
      exact absurd rfl (decimalDigits_ne_minus _ _ hmem)
  · by_cases hj : j < 0
    · simp only [hi, hj, if_true, if_false] at h
      have hmem : '-' ∈ decimalDigits i.natAbs := by rw [h]; exact List.mem_cons_self _ _
      exact absurd rfl (decimalDigits_ne_minus _ _ hmem)
    · simp only [hi, hj, if_false] at h
      have := decimalDigits_inj _ _ h
      omega

theorem decimalDigits_length (n : Nat) (hn : n ≤ 2 ^ 31) : (decimalDigits n).length ≤ 10 := by
  unfold decimalDigits
  by_cases h0 : n = 0
  · simp [h0]
  · simp only [h0, if_false, List.length_map, List.length_reverse]
    by_contra hlen
    have h11 : 11 ≤ (Nat.digits 10 n).length := by omega
    have hle := Nat.base_pow_length_digits_le 10 n (by norm_num) h0
    have hpow : 10 ^ 11 ≤ 10 ^ (Nat.digits 10 n).length :=
      Nat.pow_le_pow_right (by norm_num) h11
    have : (10 : Nat) ^ 11 ≤ 10 * n := le_trans hpow hle
    norm_num at this hn
    omega

theorem formatInt_length (i : Int) (hlo : -2 ^ 31 ≤ i) (hhi : i < 2 ^ 31) :
    (formatInt i).length ≤ 11 := by
  have hn : i.natAbs ≤ 2 ^ 31 := by omega
  have := decimalDigits_length i.natAbs hn
  unfold formatInt
  split_ifs
  · simp only [List.length_cons]; omega
  · omega

/-- C15: for every 32-bit device index `i`, the identifier is `JS:` followed
by the decimal rendering of `i`, whole (at most 14 characters, inside the
16-byte buffer), and two different indices have different identifiers;
`GetIdentifier()` is this string for the adapter's `DeviceIndex`. -/
theorem c15_identifier_unique (i j : Int) (hilo : -2 ^ 31 ≤ i) (hihi : i < 2 ^ 31)
    (hjlo : -2 ^ 31 ≤ j) (hjhi : j < 2 ^ 31) :
    identifierOf i = String.mk ("JS:".toList ++ formatInt i) ∧
    (identifierOf i).length ≤ 14 ∧
    (i ≠ j → identifierOf i ≠ identifierOf j) ∧
    (∀ jd : SDLInputJoystick, (jd.DeviceIndex : Int) = i → jd.GetIdentifier = identifierOf i) := by
  have hfull : ∀ k : Int, -2 ^ 31 ≤ k → k < 2 ^ 31 →
      snprintf 16 ("JS:".toList ++ formatInt k) = "JS:".toList ++ formatInt k := by
    intro k h1 h2
    have hlen := formatInt_length k h1 h2
    unfold snprintf
    apply List.take_of_length_le
    simp only [List.length_append]
    have : "JS:".toList.length = 3 := rfl
    omega
  refine ⟨?_, ?_, ?_, ?_⟩
  · unfold identifierOf; rw [hfull i hilo hihi]
  · unfold identifierOf
    rw [hfull i hilo hihi]
    have hlen := formatInt_length i hilo hihi
    have : "JS:".toList.length = 3 := rfl
    simp only [String.length, List.length_append]
    omega
  · intro hne hcon
    unfold identifierOf at hcon
    rw [hfull i hilo hihi, hfull j hjlo hjhi] at hcon
    have h1 : "JS:".toList ++ formatInt i = "JS:".toList ++ formatInt j :=
      congrArg String.data hcon
    exact hne (formatInt_inj i j (List.append_cancel_left h1))
  · intro jd hjd
    unfold SDLInputJoystick.GetIdentifier
    rw [hjd]

/-- C15 at a concrete input: the device indices 0 and 1. -/
theorem c15_witness :
    ((-2 ^ 31 ≤ (0 : Int) ∧ (0 : Int) < 2 ^ 31) ∧ (-2 ^ 31 ≤ (1 : Int) ∧ (1 : Int) < 2 ^ 31)) ∧
    (identifierOf 0 = String.mk ("JS:".toList ++ formatInt 0) ∧
    (identifierOf 0).length ≤ 14 ∧
    ((0 : Int) ≠ 1 → identifierOf 0 ≠ identifierOf 1) ∧
    (∀ jd : SDLInputJoystick, (jd.DeviceIndex : Int) = 0 → jd.GetIdentifier = identifierOf 0)) :=
  ⟨⟨⟨by decide, by decide⟩, ⟨by decide, by decide⟩⟩,
    c15_identifier_unique 0 1 (by decide) (by decide) (by decide) (by decide)⟩

/-! ## Reporting defaults -/

/-- Right after construction a classic joystick reports its sensitivity, axis
maps and axis scales as default, and every axis dead zone as not default: the
stored `DEFAULT_DEADZONE` is above `MIN_DEADZONE`. -/
theorem joystick_constructed_defaults (sdl : SDL) (DeviceIndex dev : Nat)
    (hopen : sdl.SDL_JoystickOpen DeviceIndex = some dev) (i : Nat)
    (hi : i < (SDLInputJoystick.new sdl DeviceIndex).GetNumAxes) :
    (SDLInputJoystick.new sdl DeviceIndex).IsSensitivityDefault = true ∧
    (SDLInputJoystick.new sdl DeviceIndex).IsAxisDeadZoneDefault i = some false ∧
    (SDLInputJoystick.new sdl DeviceIndex).IsAxisMapDefault i = some true ∧
    (SDLInputJoystick.new sdl DeviceIndex).IsAxisScaleDefault i = some true := by
  rw [new_eq_of_open sdl DeviceIndex dev hopen] at hi ⊢
  simp only [SDLInputJoystick.GetNumAxes] at hi
  refine ⟨rfl, ?_, ?_, ?_⟩
  · simp [SDLInputJoystick.IsAxisDeadZoneDefault, hi, SDLInputJoystick.defaultAxisInfo,
      DEFAULT_DEADZONE, MIN_DEADZONE]
    norm_num
  · by_cases h5 : i ≥ 5
    · simp [SDLInputJoystick.IsAxisMapDefault, hi, SDLInputJoystick.defaultAxisInfo, h5]
    · simp [SDLInputJoystick.IsAxisMapDefault, hi, SDLInputJoystick.defaultAxisInfo, h5]
  · simp [SDLInputJoystick.IsAxisScaleDefault, hi, SDLInputJoystick.defaultAxisInfo]

/-- After `SetDefaultConfig` on a freshly constructed gamepad, the sensitivity
and, for each of the six axes, the dead zone, the map and the scale are all
reported as default. -/
theorem gamepad_defaults_report (sdl : SDL) (DeviceIndex : Nat) (uninit : ℚ) (i : Nat)
    (hi : i < (SDLInputGamepad.new sdl DeviceIndex uninit).SetDefaultConfig.GetNumAxes) :
    (SDLInputGamepad.new sdl DeviceIndex uninit).SetDefaultConfig.IsSensitivityDefault = true ∧
    (SDLInputGamepad.new sdl DeviceIndex uninit).SetDefaultConfig.IsAxisDeadZoneDefault i
      = some true ∧
    (SDLInputGamepad.new sdl DeviceIndex uninit).SetDefaultConfig.IsAxisMapDefault i = true ∧
    (SDLInputGamepad.new sdl DeviceIndex uninit).SetDefaultConfig.IsAxisScaleDefault i
      = some true := by
  have hloop := gamepad_SetDefaultConfig_loop
    { SDLInputGamepad.new sdl DeviceIndex uninit with Multiplier := 1 } SDL_CONTROLLER_AXIS_MAX
  have hi6 : i < SDL_CONTROLLER_AXIS_MAX := hi
  have hentry : (SDLInputGamepad.new sdl DeviceIndex uninit).SetDefaultConfig.AxisSettings[i]?
      = some { DeadZone := DEFAULT_DEADZONE, Multiplier := 1 } := by
    unfold SDLInputGamepad.SetDefaultConfig
    rw [hloop.2 i]
    simp [hi6, SDLInputGamepad.new, List.getElem?_replicate]
  have hmul : (SDLInputGamepad.new sdl DeviceIndex uninit).SetDefaultConfig.Multiplier = 1 := by
    unfold SDLInputGamepad.SetDefaultConfig
    rw [hloop.1]
  refine ⟨?_, ?_, rfl, ?_⟩
  · simp [SDLInputGamepad.IsSensitivityDefault, hmul]
  · simp [SDLInputGamepad.IsAxisDeadZoneDefault, hentry]
  · simp [SDLInputGamepad.IsAxisScaleDefault, hentry]

/-- C16 at the failing input: the classic joystick at device index 0 right
after construction. Its first axis holds the default dead zone 0.25, yet
`IsAxisDeadZoneDefault(0)` is false, because the test is
`DeadZone <= MIN_DEADZONE`. -/
theorem c16_joystick_default_deadzone_not_reported :
    (SDLInputJoystick.new sdlA 0).IsValid = true ∧
    (0 < (SDLInputJoystick.new sdlA 0).GetNumAxes) ∧
    (SDLInputJoystick.new sdlA 0).GetAxisDeadZone 0 = some DEFAULT_DEADZONE ∧
    (SDLInputJoystick.new sdlA 0).IsAxisDeadZoneDefault 0 = some false := by
  refine ⟨?_, ?_, ?_, ?_⟩ <;> decide!

/-! ## Range of the normalised sample -/

/-- The axis value the gamepad hands to the dead-zone removal is the raw sample
over 32767, for every implementation of the removal. -/
theorem processAxis_argument (lib : MJoy) (sdl : SDL) (g : SDLInputGamepad) (axis : Nat) :
    g.processAxis lib sdl axis
      = (lib.Joy_RemoveDeadZone ((SDLInputGamepad.rawAxis sdl g axis : ℚ) / 32767)
          (g.storedDeadZone axis)).1 ∧
    g.processAxisAsButton lib sdl axis
      = (lib.Joy_RemoveDeadZone ((SDLInputGamepad.rawAxis sdl g axis : ℚ) / 32767)
          (g.storedDeadZone axis)).2 % 256 :=
  ⟨rfl, rfl⟩

/-- Every sample from -32767 to 32767 is normalised into `[-1, 1]`. -/
theorem normalised_sample_range (r : Int) (hlo : -32767 ≤ r) (hhi : r ≤ 32767) :
    -1 ≤ (r : ℚ) / 32767 ∧ (r : ℚ) / 32767 ≤ 1 := by
  have h1 : (-32767 : ℚ) ≤ (r : ℚ) := by exact_mod_cast hlo
  have h2 : (r : ℚ) ≤ 32767 := by exact_mod_cast hhi
  constructor
  · rw [le_div_iff₀ (by norm_num)]; linarith
  · rw [div_le_iff₀ (by norm_num)]; linarith

/-- C17 at the failing input: every axis reads the sample -32768. For every
implementation of the dead-zone removal, the axis value the gamepad's
`processAxis` and `processAxisAsButton` hand to it is `-32768/32767`, which is
below `-1`; the classic joystick's `ProcessInput` hands over the same value
(the value it stores for axis 0 is the removal's result on it). -/
theorem c17_lowest_sample_below_minus_one (lib : MJoy) :
    SDLInputGamepad.rawAxis sdlB (SDLInputGamepad.new sdlB 1 1) 0 = -32768 ∧
    (SDLInputGamepad.new sdlB 1 1).processAxis lib sdlB 0
      = (lib.Joy_RemoveDeadZone (-32768 / 32767) 0).1 ∧
    (SDLInputGamepad.new sdlB 1 1).processAxisAsButton lib sdlB 0
      = (lib.Joy_RemoveDeadZone (-32768 / 32767) 0).2 % 256 ∧
    SDLInputJoystick.rawAxis sdlB (SDLInputJoystick.new sdlB 0) 0 = -32768 ∧
    (SDLInputJoystick.new sdlB 0).GetAxisDeadZone 0 = some (1 / 4) ∧
    (((SDLInputJoystick.new sdlB 0).ProcessInput lib sdlB).1.Axes[0]?).map (fun a => a.Value)
      = some (lib.Joy_RemoveDeadZone (-32768 / 32767) (1 / 4)).1 ∧
    ((-32768 : ℚ) / 32767 < -1) := by
  refine ⟨by decide, ?_, ?_, by decide, by decide!, ?_, by norm_num⟩
  · simp [SDLInputGamepad.processAxis, SDLInputGamepad.rawAxis, SDLInputGamepad.storedDeadZone,
      SDLInputGamepad.new, sdlB, sdlA, SDL_CONTROLLER_AXIS_MAX]
  · simp [SDLInputGamepad.processAxisAsButton, SDLInputGamepad.rawAxis,
      SDLInputGamepad.storedDeadZone, SDLInputGamepad.new, sdlB, sdlA, SDL_CONTROLLER_AXIS_MAX]
  · simp [SDLInputJoystick.ProcessInput, forLoop, SDLInputJoystick.axisStep,
      SDLInputJoystick.xyStep, SDLInputJoystick.hatStep, modifyAt, SDLInputJoystick.rawAxis,
      SDLInputJoystick.rawHat, SDLInputJoystick.new, sdlB, sdlA, SetDefaultConfig_eq,
      SDLInputJoystick.GetNumAxes, SDLInputJoystick.defaultAxisInfo, DEFAULT_DEADZONE,
      List.range_succ]

/-! ## `SetDefaultConfig` on a configured joystick -/

/-- `SetDefaultConfig` on a classic joystick keeps every entry the axis table
already has and makes the table longer by `GetNumAxes()` entries. -/
theorem SetDefaultConfig_keeps_entries (j : SDLInputJoystick) :
    j.SetDefaultConfig.Axes.length = j.Axes.length + j.GetNumAxes ∧
    j.SetDefaultConfig.GetNumAxes = j.GetNumAxes ∧
    ∀ i, i < j.Axes.length → j.SetDefaultConfig.Axes[i]? = j.Axes[i]? := by
  rw [SetDefaultConfig_eq]
  refine ⟨by simp, rfl, ?_⟩
  intro i hi
  simp [List.getElem?_append_left hi]

/-- C19 at the failing input: the classic joystick at device index 0 (two axes
and one hat, four table entries) after `SetAxisDeadZone(0, 0.5)`. After
`SetDefaultConfig` the dead zone of axis 0 is still 0.5, not 0.25, and the
table has eight entries while `GetNumAxes()` is four. -/
theorem c19_SetDefaultConfig_does_not_reset :
    ∃ j, (SDLInputJoystick.new sdlA 0).calls [ConfigCall.SetAxisDeadZone 0 (1 / 2)] = some j ∧
      j.SetDefaultConfig.GetAxisDeadZone 0 = some (1 / 2) ∧
      j.SetDefaultConfig.GetNumAxes = 4 ∧
      j.SetDefaultConfig.Axes.length = 8 ∧
      (SDLInputJoystick.new sdlA 0).SetDefaultConfig.Axes.length = 8 := by
  refine ⟨_, rfl, ?_, ?_, ?_, ?_⟩ <;> decide!

/-! ## Polling twice -/

theorem set_eq_self {α : Type} (l : List α) (i : Nat) (a : α) (h : l[i]? = some a) :
    l.set i a = l := by
  apply List.ext_getElem?
  intro k
  rw [List.getElem?_set]
  by_cases hk : i = k
  · subst hk
    have hlt : i < l.length := by
      by_contra hge
      rw [List.getElem?_eq_none (Nat.le_of_not_lt hge)] at h
      cases h
    simp [hlt, h]
  · simp [hk]

theorem modifyAt_eq_self {α : Type} (l : List α) (i : Nat) (f : α → α)
    (h : ∀ a, l[i]? = some a → f a = a) : modifyAt l i f = l := by
  unfold modifyAt
  cases ha : l[i]? with
  | none => rfl
  | some a => simp only; rw [h a ha]; exact set_eq_self l i a ha

theorem set_eq_modifyAt {α : Type} (l : List α) (i : Nat) (a : α) (f : α → α)
    (h : l[i]? = some a) : l.set i (f a) = modifyAt l i f := by
  unfold modifyAt
  rw [h]

/-- The first loop's body rewrites entry `i` and nothing else. -/
theorem axisStep_Axes (lib : MJoy) (sdl : SDL) (i : Nat)
    (s : SDLInputJoystick × List ButtonEvent) :
    (SDLInputJoystick.axisStep lib sdl i s).1.Axes
      = modifyAt s.1.Axes i (SDLInputJoystick.axisEntry lib sdl s.1 i) := by
  unfold SDLInputJoystick.axisStep
  dsimp only
  cases ha : s.1.Axes[i]? with
  | none => simp [modifyAt, ha]
  | some a =>
      dsimp only
      by_cases hc : s.1.NumAxes = 1 ∨ (i ≥ 2 ∧ i < lib.NUM_JOYAXISBUTTONS)
      · simp only [hc, if_true]
        rw [← set_eq_modifyAt _ _ a _ ha]
        simp [SDLInputJoystick.axisEntry, hc]
      · simp only [hc, if_false]
        rw [← set_eq_modifyAt _ _ a _ ha]
        simp [SDLInputJoystick.axisEntry, hc]

theorem xyStep_Axes_of (lib : MJoy) (s : SDLInputJoystick × List ButtonEvent)
    (a1 : SDLInputJoystick.AxisInfo) (hn : s.1.NumAxes > 1) (h1 : s.1.Axes[1]? = some a1) :
    (SDLInputJoystick.xyStep lib s).1.Axes
      = modifyAt s.1.Axes 0 (SDLInputJoystick.xyEntry lib a1) := by
  unfold SDLInputJoystick.xyStep
  dsimp only
  simp only [hn, if_true, h1]
  cases h0 : s.1.Axes[0]? with
  | none => simp [modifyAt, h0]
  | some a0 =>
      dsimp only
      rw [← set_eq_modifyAt _ _ a0 _ h0]
      rfl

theorem xyStep_Axes_else (lib : MJoy) (s : SDLInputJoystick × List ButtonEvent)
    (h : ¬ s.1.NumAxes > 1 ∨ s.1.Axes[1]? = none) :
    SDLInputJoystick.xyStep lib s = s := by
  unfold SDLInputJoystick.xyStep
  dsimp only
  rcases h with h | h
  · simp only [h, if_false]
  · split_ifs
    · rw [h]
      cases s.1.Axes[0]? <;> rfl
    · rfl

/-- The hat loop's body rewrites the two synthetic axes of hat `i` and nothing
else. -/
theorem hatStep_Axes (lib : MJoy) (sdl : SDL) (i : Nat)
    (s : SDLInputJoystick × List ButtonEvent) :
    (SDLInputJoystick.hatStep lib sdl i s).1.Axes
      = modifyAt (modifyAt s.1.Axes (s.1.NumAxes + i * 2 + 1) (SDLInputJoystick.hatYEntry sdl s.1 i))
          (s.1.NumAxes + i * 2) (SDLInputJoystick.hatXEntry sdl s.1 i) := by
  rw [hatStep_axes]
  have hy : (fun y : SDLInputJoystick.AxisInfo =>
        ({ y with Value := SDLInputJoystick.hatY (SDLInputJoystick.rawHat sdl s.1 i) } :
          SDLInputJoystick.AxisInfo))
      = SDLInputJoystick.hatYEntry sdl s.1 i := rfl
  rw [hy]
  generalize modifyAt s.1.Axes (s.1.NumAxes + i * 2 + 1) (SDLInputJoystick.hatYEntry sdl s.1 i)
    = axes1
  cases hx : axes1[s.1.NumAxes + i * 2]? with
  | none =>
      have h2 : modifyAt axes1 (s.1.NumAxes + i * 2)
          (fun x => ({ x with Value := SDLInputJoystick.hatX (SDLInputJoystick.rawHat sdl s.1 i) } :
            SDLInputJoystick.AxisInfo)) = axes1 := by
        simp [modifyAt, hx]
      have h3 : modifyAt axes1 (s.1.NumAxes + i * 2) (SDLInputJoystick.hatXEntry sdl s.1 i)
          = axes1 := by
        simp [modifyAt, hx]
      rw [h2, h3, hx]
      split_ifs <;> rfl
  | some x0 =>
      have hlt : s.1.NumAxes + i * 2 < axes1.length := by
        by_contra hge
        rw [List.getElem?_eq_none (Nat.le_of_not_lt hge)] at hx
        cases hx
      have h2 : modifyAt axes1 (s.1.NumAxes + i * 2)
          (fun x => ({ x with Value := SDLInputJoystick.hatX (SDLInputJoystick.rawHat sdl s.1 i) } :
            SDLInputJoystick.AxisInfo))
          = axes1.set (s.1.NumAxes + i * 2)
              { x0 with Value := SDLInputJoystick.hatX (SDLInputJoystick.rawHat sdl s.1 i) } := by
        simp [modifyAt, hx]
      have h3 : modifyAt axes1 (s.1.NumAxes + i * 2) (SDLInputJoystick.hatXEntry sdl s.1 i)
          = axes1.set (s.1.NumAxes + i * 2) (SDLInputJoystick.hatXEntry sdl s.1 i x0) := by
        simp [modifyAt, hx]
      rw [h2, h3]
      by_cases h4 : i < 4
      · simp [h4, hlt, SDLInputJoystick.hatXEntry]
      · simp [h4, SDLInputJoystick.hatXEntry]

/-- On a state whose entry `i` already holds what the device reports, the first
loop's body changes nothing and posts nothing. -/
theorem axisStep_fixed (lib : MJoy) (sdl : SDL) (i : Nat) (j : SDLInputJoystick)
    (ev : List ButtonEvent) (hq : lib.QuietWhenUnchanged)
    (h : ∀ a, j.Axes[i]? = some a → SDLInputJoystick.axisEntry lib sdl j i a = a) :
    SDLInputJoystick.axisStep lib sdl i (j, ev) = (j, ev) := by
  unfold SDLInputJoystick.axisStep
  dsimp only
  cases ha : j.Axes[i]? with
  | none => rfl
  | some a =>
      dsimp only
      have hfix := h a ha
      have hv : (lib.Joy_RemoveDeadZone ((SDLInputJoystick.rawAxis sdl j i : ℚ) / 32767)
          a.DeadZone).1 = a.Value := by
        have := congrArg (fun e => e.Value) hfix
        simpa [SDLInputJoystick.axisEntry] using this
      by_cases hc : j.NumAxes = 1 ∨ (i ≥ 2 ∧ i < lib.NUM_JOYAXISBUTTONS)
      · have hb : (lib.Joy_RemoveDeadZone ((SDLInputJoystick.rawAxis sdl j i : ℚ) / 32767)
            a.DeadZone).2 % 256 = a.ButtonValue := by
          have := congrArg (fun e => e.ButtonValue) hfix
          simpa [SDLInputJoystick.axisEntry, hc] using this
        simp only [hc, if_true, hv, hb, hq a.ButtonValue, List.append_nil]
        rw [set_eq_self j.Axes i a ha]
      · simp only [hc, if_false, hv]
        rw [set_eq_self j.Axes i a ha]

theorem xyStep_fixed (lib : MJoy) (j : SDLInputJoystick) (ev : List ButtonEvent)
    (hq : lib.QuietWhenUnchanged) (h : j.XYPolled lib) :
    SDLInputJoystick.xyStep lib (j, ev) = (j, ev) := by
  by_cases hn : j.NumAxes > 1
  · cases h1 : j.Axes[1]? with
    | none => exact xyStep_Axes_else lib (j, ev) (Or.inr h1)
    | some a1 =>
        cases h0 : j.Axes[0]? with
        | none =>
            unfold SDLInputJoystick.xyStep
            dsimp only
            simp only [hn, if_true, h0]
        | some a0 =>
            have hb := h hn a0 a1 h0 h1
            unfold SDLInputJoystick.xyStep
            dsimp only
            simp only [hn, if_true, h0, h1, ← hb, hq a0.ButtonValue, List.append_nil]
            rw [set_eq_self j.Axes 0 a0 h0]
  · exact xyStep_Axes_else lib (j, ev) (Or.inl hn)

theorem hatStep_fixed (lib : MJoy) (sdl : SDL) (i : Nat) (j : SDLInputJoystick)
    (ev : List ButtonEvent) (hq : lib.QuietWhenUnchanged)
    (hx : ∀ x, j.Axes[j.NumAxes + i * 2]? = some x → SDLInputJoystick.hatXEntry sdl j i x = x)
    (hy : ∀ y, j.Axes[j.NumAxes + i * 2 + 1]? = some y →
      SDLInputJoystick.hatYEntry sdl j i y = y) :
    SDLInputJoystick.hatStep lib sdl i (j, ev) = (j, ev) := by
  have h1 : modifyAt j.Axes (j.NumAxes + i * 2 + 1)
      (fun y => ({ y with Value := SDLInputJoystick.hatY (SDLInputJoystick.rawHat sdl j i) } :
        SDLInputJoystick.AxisInfo)) = j.Axes :=
    modifyAt_eq_self _ _ _ hy
  have h2 : modifyAt j.Axes (j.NumAxes + i * 2)
      (fun x => ({ x with Value := SDLInputJoystick.hatX (SDLInputJoystick.rawHat sdl j i) } :
        SDLInputJoystick.AxisInfo)) = j.Axes := by
    apply modifyAt_eq_self
    intro x hxx
    have := congrArg (fun e => e.Value) (hx x hxx)
    simp only [SDLInputJoystick.hatXEntry] at this
    cases x
    simp_all
  unfold SDLInputJoystick.hatStep
  dsimp only
  rw [h1, h2]
  by_cases h4 : i < 4
  · simp only [h4, if_true]
    cases hxx : j.Axes[j.NumAxes + i * 2]? with
    | none => rfl
    | some x =>
        dsimp only
        have hb : SDLInputJoystick.rawHat sdl j i = x.ButtonValue := by
          have := congrArg (fun e => e.ButtonValue) (hx x hxx)
          simpa [SDLInputJoystick.hatXEntry, h4] using this
        simp only [hb, hq x.ButtonValue, List.append_nil]
        rw [set_eq_self j.Axes _ x hxx]
  · simp only [h4, if_false]

/-- A classic joystick whose stored state is what the device reports is left as
it is by a polling pass, and the pass posts no event. -/
theorem ProcessInput_of_Polled (lib : MJoy) (sdl : SDL) (j : SDLInputJoystick)
    (hq : lib.QuietWhenUnchanged) (hp : j.Polled lib sdl) :
    j.ProcessInput lib sdl = (j, []) := by
  obtain ⟨hA, hB, hC⟩ := hp
  have h1 : ∀ k, k ≤ j.NumAxes →
      forLoop k (SDLInputJoystick.axisStep lib sdl) (j, []) = (j, []) := by
    intro k
    induction k with
    | zero => intro _; rfl
    | succ k ih =>
        intro hk
        rw [forLoop_succ, ih (Nat.le_of_succ_le hk)]
        exact axisStep_fixed lib sdl k j [] hq (fun a ha => hA k a hk ha)
  have h3 : ∀ k, k ≤ j.NumHats →
      forLoop k (SDLInputJoystick.hatStep lib sdl) (j, []) = (j, []) := by
    intro k
    induction k with
    | zero => intro _; rfl
    | succ k ih =>
        intro hk
        rw [forLoop_succ, ih (Nat.le_of_succ_le hk)]
        exact hatStep_fixed lib sdl k j [] hq (hC k hk).1 (hC k hk).2
  unfold SDLInputJoystick.ProcessInput
  dsimp only
  rw [h1 j.NumAxes (Nat.le_refl _), xyStep_fixed lib j [] hq hB, h3 j.NumHats (Nat.le_refl _)]

theorem axisEntry_congr (lib : MJoy) (sdl : SDL) (j1 j2 : SDLInputJoystick) (i : Nat)
    (hd : j1.Device = j2.Device) (hn : j1.NumAxes = j2.NumAxes) :
    SDLInputJoystick.axisEntry lib sdl j1 i = SDLInputJoystick.axisEntry lib sdl j2 i := by
  funext a
  unfold SDLInputJoystick.axisEntry SDLInputJoystick.rawAxis
  rw [hd, hn]

theorem hatXEntry_congr (sdl : SDL) (j1 j2 : SDLInputJoystick) (i : Nat)
    (hd : j1.Device = j2.Device) :
    SDLInputJoystick.hatXEntry sdl j1 i = SDLInputJoystick.hatXEntry sdl j2 i := by
  funext a
  unfold SDLInputJoystick.hatXEntry
  rw [rawHat_congr sdl j1 j2 i hd]

theorem hatYEntry_congr (sdl : SDL) (j1 j2 : SDLInputJoystick) (i : Nat)
    (hd : j1.Device = j2.Device) :
    SDLInputJoystick.hatYEntry sdl j1 i = SDLInputJoystick.hatYEntry sdl j2 i := by
  funext a
  unfold SDLInputJoystick.hatYEntry
  rw [rawHat_congr sdl j1 j2 i hd]

theorem axisEntry_idem (lib : MJoy) (sdl : SDL) (j : SDLInputJoystick) (i : Nat)
    (a : SDLInputJoystick.AxisInfo) :
    SDLInputJoystick.axisEntry lib sdl j i (SDLInputJoystick.axisEntry lib sdl j i a)
      = SDLInputJoystick.axisEntry lib sdl j i a := by
  unfold SDLInputJoystick.axisEntry
  by_cases hc : j.NumAxes = 1 ∨ (i ≥ 2 ∧ i < lib.NUM_JOYAXISBUTTONS)
  · simp [hc]
  · simp [hc]

theorem hatXEntry_idem (sdl : SDL) (j : SDLInputJoystick) (i : Nat)
    (a : SDLInputJoystick.AxisInfo) :
    SDLInputJoystick.hatXEntry sdl j i (SDLInputJoystick.hatXEntry sdl j i a)
      = SDLInputJoystick.hatXEntry sdl j i a := by
  unfold SDLInputJoystick.hatXEntry
  by_cases h4 : i < 4
  · simp [h4]
  · simp [h4]

theorem hatYEntry_idem (sdl : SDL) (j : SDLInputJoystick) (i : Nat)
    (a : SDLInputJoystick.AxisInfo) :
    SDLInputJoystick.hatYEntry sdl j i (SDLInputJoystick.hatYEntry sdl j i a)
      = SDLInputJoystick.hatYEntry sdl j i a := rfl

/-- Invariant of the first loop: after `k` iterations the physical axes below
`k` hold what the device reports. -/
theorem axisLoop_polled (lib : MJoy) (sdl : SDL) (j : SDLInputJoystick) (k : Nat) :
    SameShape j (forLoop k (SDLInputJoystick.axisStep lib sdl) (j, [])) ∧
    ∀ i a, i < k →
      (forLoop k (SDLInputJoystick.axisStep lib sdl) (j, [])).1.Axes[i]? = some a →
      SDLInputJoystick.axisEntry lib sdl j i a = a := by
  induction k with
  | zero => exact ⟨⟨rfl, rfl, rfl, rfl⟩, fun i a hi => absurd hi (Nat.not_lt_zero i)⟩
  | succ k ih =>
      obtain ⟨hshape, hpol⟩ := ih
      rw [forLoop_succ]
      refine ⟨axisStep_shape lib sdl j k _ hshape, ?_⟩
      intro i a hi ha
      rw [axisStep_Axes, getElem?_modifyAt,
        axisEntry_congr lib sdl _ j k hshape.2.2.1 hshape.1] at ha
      by_cases hik : i = k
      · subst hik
        simp only [if_true] at ha
        cases hold : (forLoop i (SDLInputJoystick.axisStep lib sdl) (j, [])).1.Axes[i]? with
        | none => simp [hold] at ha
        | some a0 =>
            simp only [hold, Option.map_some', Option.some.injEq] at ha
            rw [← ha]
            exact axisEntry_idem lib sdl j i a0
      · simp only [hik, if_false] at ha
        exact hpol i a (by omega) ha

/-- The block for the first two axes keeps the physical axes as polled and
leaves their button group as computed from the stored values. -/
theorem xyStep_polled (lib : MJoy) (sdl : SDL) (j : SDLInputJoystick)
    (s : SDLInputJoystick × List ButtonEvent) (hshape : SameShape j s)
    (hA : ∀ i a, i < j.NumAxes → s.1.Axes[i]? = some a →
      SDLInputJoystick.axisEntry lib sdl j i a = a) :
    (∀ i a, i < j.NumAxes → (SDLInputJoystick.xyStep lib s).1.Axes[i]? = some a →
      SDLInputJoystick.axisEntry lib sdl j i a = a) ∧
    SDLInputJoystick.XYPolled lib (SDLInputJoystick.xyStep lib s).1 := by
  by_cases hn : s.1.NumAxes > 1
  · cases h1 : s.1.Axes[1]? with
    | none =>
        rw [xyStep_Axes_else lib s (Or.inr h1)]
        refine ⟨hA, ?_⟩
        intro _ a0 a1 _ h1'
        rw [h1] at h1'
        cases h1'
    | some a1 =>
        have hAx := xyStep_Axes_of lib s a1 hn h1
        have hjn : ¬ (j.NumAxes = 1 ∨ (0 ≥ 2 ∧ 0 < lib.NUM_JOYAXISBUTTONS)) := by
          have := hshape.1
          omega
        refine ⟨?_, ?_⟩
        · intro i a hi ha
          rw [hAx, getElem?_modifyAt] at ha
          by_cases hi0 : i = 0
          · subst hi0
            simp only [if_true] at ha
            cases h0 : s.1.Axes[0]? with
            | none => simp [h0] at ha
            | some a0 =>
                simp only [h0, Option.map_some', Option.some.injEq] at ha
                have hfix := hA 0 a0 hi h0
                have hv := congrArg (fun e => e.Value) hfix
                rw [← ha]
                simp only [SDLInputJoystick.axisEntry, hjn, if_false] at hv ⊢
                simp only [SDLInputJoystick.xyEntry]
                rw [hv]
          · simp only [hi0, if_false] at ha
            exact hA i a hi ha
        · intro _ b0 b1 hb0 hb1
          rw [hAx, getElem?_modifyAt] at hb0 hb1
          simp only [if_true] at hb0
          simp only [Nat.one_ne_zero, if_false] at hb1
          rw [h1, Option.some.injEq] at hb1
          cases h0 : s.1.Axes[0]? with
          | none => simp [h0] at hb0
          | some a0 =>
              simp only [h0, Option.map_some', Option.some.injEq] at hb0
              rw [← hb0, ← hb1]
              rfl
  · rw [xyStep_Axes_else lib s (Or.inl hn)]
    exact ⟨hA, fun hn' => absurd hn' hn⟩

/-- Invariant of the hat loop: after `k` iterations the physical axes are
untouched and the synthetic axes of the hats below `k` hold what the device
reports. -/
theorem hatLoop_polled (lib : MJoy) (sdl : SDL) (j : SDLInputJoystick)
    (s0 : SDLInputJoystick × List ButtonEvent) (hs0 : SameShape j s0) (k : Nat) :
    SameShape j (forLoop k (SDLInputJoystick.hatStep lib sdl) s0) ∧
    (∀ idx, idx < j.NumAxes →
      (forLoop k (SDLInputJoystick.hatStep lib sdl) s0).1.Axes[idx]? = s0.1.Axes[idx]?) ∧
    ∀ i, i < k →
      (∀ x, (forLoop k (SDLInputJoystick.hatStep lib sdl) s0).1.Axes[j.NumAxes + i * 2]? = some x →
        SDLInputJoystick.hatXEntry sdl j i x = x) ∧
      (∀ y, (forLoop k (SDLInputJoystick.hatStep lib sdl) s0).1.Axes[j.NumAxes + i * 2 + 1]?
          = some y → SDLInputJoystick.hatYEntry sdl j i y = y) := by
  induction k with
  | zero => exact ⟨hs0, fun _ _ => rfl, fun i hi => absurd hi (Nat.not_lt_zero i)⟩
  | succ k ih =>
      obtain ⟨hshape, hframe, hhats⟩ := ih
      rw [forLoop_succ]
      have hget : ∀ idx,
          (SDLInputJoystick.hatStep lib sdl k
            (forLoop k (SDLInputJoystick.hatStep lib sdl) s0)).1.Axes[idx]?
          = if idx = j.NumAxes + k * 2 then
              ((forLoop k (SDLInputJoystick.hatStep lib sdl) s0).1.Axes[idx]?).map
                (SDLInputJoystick.hatXEntry sdl j k)
            else if idx = j.NumAxes + k * 2 + 1 then
              ((forLoop k (SDLInputJoystick.hatStep lib sdl) s0).1.Axes[idx]?).map
                (SDLInputJoystick.hatYEntry sdl j k)
            else (forLoop k (SDLInputJoystick.hatStep lib sdl) s0).1.Axes[idx]? := by
        intro idx
        rw [hatStep_Axes, getElem?_modifyAt, getElem?_modifyAt, hshape.1,
          hatXEntry_congr sdl _ j k hshape.2.2.1, hatYEntry_congr sdl _ j k hshape.2.2.1]
        by_cases h1 : idx = j.NumAxes + k * 2
        · have h2 : ¬ idx = j.NumAxes + k * 2 + 1 := by omega
          simp only [h1, if_true]
          have h3 : ¬ j.NumAxes + k * 2 = j.NumAxes + k * 2 + 1 := by omega
          simp only [h3, if_false]
        · simp only [h1, if_false]
      refine ⟨hatStep_shape lib sdl j k _ hshape, ?_, ?_⟩
      · intro idx hidx
        rw [hget idx]
        have h1 : ¬ idx = j.NumAxes + k * 2 := by omega
        have h2 : ¬ idx = j.NumAxes + k * 2 + 1 := by omega
        simp only [h1, h2, if_false]
        exact hframe idx hidx
      · intro i hi
        by_cases hik : i = k
        · subst hik
          refine ⟨?_, ?_⟩
          · intro x hx
            rw [hget] at hx
            simp only [if_true] at hx
            cases hold : (forLoop i (SDLInputJoystick.hatStep lib sdl) s0).1.Axes[
                j.NumAxes + i * 2]? with
            | none => simp [hold] at hx
            | some x0 =>
                simp only [hold, Option.map_some', Option.some.injEq] at hx
                rw [← hx]
                exact hatXEntry_idem sdl j i x0
          · intro y hy
            rw [hget] at hy
            have h3 : ¬ j.NumAxes + i * 2 + 1 = j.NumAxes + i * 2 := by omega
            simp only [h3, if_false, if_true] at hy
            cases hold : (forLoop i (SDLInputJoystick.hatStep lib sdl) s0).1.Axes[
                j.NumAxes + i * 2 + 1]? with
            | none => simp [hold] at hy
            | some y0 =>
                simp only [hold, Option.map_some', Option.some.injEq] at hy
                rw [← hy]
                exact hatYEntry_idem sdl j i y0
        · have hlt : i < k := by omega
          refine ⟨?_, ?_⟩
          · intro x hx
            rw [hget] at hx
            have h1 : ¬ j.NumAxes + i * 2 = j.NumAxes + k * 2 := by omega
            have h2 : ¬ j.NumAxes + i * 2 = j.NumAxes + k * 2 + 1 := by omega
            simp only [h1, h2, if_false] at hx
            exact (hhats i hlt).1 x hx
          · intro y hy
            rw [hget] at hy
            have h1 : ¬ j.NumAxes + i * 2 + 1 = j.NumAxes + k * 2 := by omega
            have h2 : ¬ j.NumAxes + i * 2 + 1 = j.NumAxes + k * 2 + 1 := by omega
            simp only [h1, h2, if_false] at hy
            exact (hhats i hlt).2 y hy

/-- After a polling pass of a classic joystick every stored axis value and
every stored button-status byte is what the pass computed from the samples. -/
theorem ProcessInput_Polled (lib : MJoy) (sdl : SDL) (j : SDLInputJoystick) :
    (j.ProcessInput lib sdl).1.Polled lib sdl := by
  obtain ⟨hs1, hA1⟩ := axisLoop_polled lib sdl j j.NumAxes
  have hs2 := xyStep_shape lib j _ hs1
  obtain ⟨hA2, hB2⟩ := xyStep_polled lib sdl j _ hs1 hA1
  obtain ⟨hs3, hframe, hC3⟩ := hatLoop_polled lib sdl j _ hs2 j.NumHats
  have hfin : j.ProcessInput lib sdl
      = forLoop j.NumHats (SDLInputJoystick.hatStep lib sdl)
          (SDLInputJoystick.xyStep lib
            (forLoop j.NumAxes (SDLInputJoystick.axisStep lib sdl) (j, []))) := rfl
  rw [hfin]
  obtain ⟨hn, hh, hd, _⟩ := hs3
  refine ⟨?_, ?_, ?_⟩
  · intro i a hi ha
    rw [hn] at hi
    rw [hframe i hi] at ha
    rw [axisEntry_congr lib sdl _ j i hd hn]
    exact hA2 i a hi ha
  · intro hgt a0 a1 h0 h1
    rw [hn] at hgt
    rw [hframe 0 (by omega)] at h0
    rw [hframe 1 (by omega)] at h1
    exact hB2 (by rw [hs2.1]; exact hgt) a0 a1 h0 h1
  · intro i hi
    rw [hh] at hi
    rw [hn, hatXEntry_congr sdl _ j i hd, hatYEntry_congr sdl _ j i hd]
    exact hC3 i hi

/-- A second polling pass of a gamepad that reports the same samples leaves the
adapter as the first pass left it and posts no event. -/
theorem gamepad_ProcessInput_twice (lib : MJoy) (sdl : SDL) (g : SDLInputGamepad)
    (hq : lib.QuietWhenUnchanged) :
    (g.ProcessInput lib sdl).1.ProcessInput lib sdl = ((g.ProcessInput lib sdl).1, []) := by
  refine Prod.ext rfl ?_
  simp only [SDLInputGamepad.ProcessInput, SDLInputGamepad.processAxis,
    SDLInputGamepad.processAxisAsButton, SDLInputGamepad.rawAxis, SDLInputGamepad.rawButton,
    SDLInputGamepad.storedDeadZone, hq _ _ _, List.append_nil]

theorem gamepad_ProcessInput_Polled (lib : MJoy) (sdl : SDL) (g : SDLInputGamepad) :
    (g.ProcessInput lib sdl).1.Polled lib sdl := rfl

theorem specMJoy_quiet (digital radius : ℚ) : (specMJoy digital radius).QuietWhenUnchanged := by
  intro buttons numbuttons base
  simp [specMJoy, specGenerateButtonEvents]

/-- C18: for either adapter, any configuration and any raw device state, when
the edge detector posts nothing for a button group whose previous and current
status are equal, a second polling pass over the same samples posts no button
event and leaves the adapter exactly as the first pass left it; after a pass
every stored value and button-status byte is the one computed from that pass's
samples. -/
theorem c18_polling_unchanged_device_is_quiet (lib : MJoy) (sdl : SDL)
    (d : IConfigurableJoystick)
    (hq : ∀ buttons numbuttons base,
      lib.Joy_GenerateButtonEvents buttons buttons numbuttons base = []) :
    (d.ProcessInput lib sdl).1.ProcessInput lib sdl = ((d.ProcessInput lib sdl).1, []) ∧
    (∀ j : SDLInputJoystick, (j.ProcessInput lib sdl).1.Polled lib sdl) ∧
    (∀ g : SDLInputGamepad, (g.ProcessInput lib sdl).1.Polled lib sdl) := by
  refine ⟨?_, fun j => ProcessInput_Polled lib sdl j,
    fun g => gamepad_ProcessInput_Polled lib sdl g⟩
  cases d with
  | joystick j =>
      simp only [IConfigurableJoystick.ProcessInput]
      rw [ProcessInput_of_Polled lib sdl _ hq (ProcessInput_Polled lib sdl j)]
  | gamepad g =>
      simp only [IConfigurableJoystick.ProcessInput]
      rw [gamepad_ProcessInput_twice lib sdl g hq]

/-- C18 at a concrete input: the classic joystick at device index 0, with the
edge detector of the specification. -/
theorem c18_witness :
    (∀ buttons numbuttons base,
      (specMJoy (1 / 2) (1 / 2)).Joy_GenerateButtonEvents buttons buttons numbuttons base = []) ∧
    (((IConfigurableJoystick.joystick (SDLInputJoystick.new sdlA 0)).ProcessInput
          (specMJoy (1 / 2) (1 / 2)) sdlA).1.ProcessInput (specMJoy (1 / 2) (1 / 2)) sdlA
        = (((IConfigurableJoystick.joystick (SDLInputJoystick.new sdlA 0)).ProcessInput
          (specMJoy (1 / 2) (1 / 2)) sdlA).1, []) ∧
    (∀ j : SDLInputJoystick,
      (j.ProcessInput (specMJoy (1 / 2) (1 / 2)) sdlA).1.Polled (specMJoy (1 / 2) (1 / 2)) sdlA) ∧
    (∀ g : SDLInputGamepad,
      (g.ProcessInput (specMJoy (1 / 2) (1 / 2)) sdlA).1.Polled (specMJoy (1 / 2) (1 / 2)) sdlA)) :=
  ⟨specMJoy_quiet (1 / 2) (1 / 2),
    c18_polling_unchanged_device_is_quiet (specMJoy (1 / 2) (1 / 2)) sdlA
      (IConfigurableJoystick.joystick (SDLInputJoystick.new sdlA 0))
      (specMJoy_quiet (1 / 2) (1 / 2))⟩

end Joystick
